import Mathlib

/-!
# Staff console: QR check-in flow

A shallow embedding of the check-in flow of the staff console:

* `handleBarCodeScanned` of `src/screens/QRScannerScreen.js` (the verifier),
* `canCheckIn` and `handleCheckIn` of `src/screens/ReservationDetailsScreen.js`.

JavaScript values are embedded as `JVal`.  The two platform services the
screens call, `JSON.parse` and the Firestore SDK, are not code of the
repository: `JSON.parse` and the outcome of each lookup attempt are fields of
`Backend`, and the reservation collection is the explicit value `Store`.
Every call that reaches the outside (a lookup, a timer, a write, a modal, an
alert, a navigation) is recorded, in program order, as an `Event`.
-/

namespace StaffApp

/-! ## JavaScript values -/

/-- JavaScript values that can flow through the screens.  `JSON.parse` and
Firestore never produce `undefined`; it is what a read of an absent property
yields.  Numbers are restricted to integers: the flow only tests a number for
being zero and for strict equality. -/
inductive JVal where
  | undefined
  | null
  | bool (b : Bool)
  | num (n : Int)
  | str (s : String)
  | arr (items : List JVal)
  | obj (entries : List (String × JVal))

/-- The entries of an object, in the order they were written. -/
abbrev Entries := List (String × JVal)

/-- Own-property read on a sequence of entries.  As in an object literal, a
spread or a JSON text, a later entry for a key replaces an earlier one. -/
def lookupLast (k : String) : Entries → Option JVal
  | [] => none
  | (k', v) :: rest =>
    match lookupLast k rest with
    | some w => some w
    | none => if k' = k then some v else none

namespace JVal

/-- JavaScript truthiness (`!!v`). -/
def truthy : JVal → Bool
  | undefined => false
  | null => false
  | bool b => b
  | num n => n != 0
  | str s => s != ""
  | arr _ => true
  | obj _ => true

/-- The test `v == null`: `v` is `null` or `undefined`. -/
def isNullish : JVal → Bool
  | undefined => true
  | null => true
  | _ => false

/-- Property read `v.k` on a value that is not nullish, for a key that is not
a built-in property of strings or arrays (the screens read only such keys):
an object yields its own entry, everything else yields `undefined`. -/
def get (v : JVal) (k : String) : JVal :=
  match v with
  | obj entries => (lookupLast k entries).getD undefined
  | _ => undefined

/-- Optional chaining `v?.k`. -/
def optGet (v : JVal) (k : String) : JVal :=
  if v.isNullish then undefined else v.get k

/-- The operator `a || b`. -/
def or (a b : JVal) : JVal :=
  if a.truthy then a else b

/-- Strict equality `a === b` between two values that do not alias.  Primitives
are compared by type and value; arrays and objects are compared by reference,
and the operands compared by the screens (a value read from the scanned
payload against a value read from a stored record or a literal) are never the
same reference. -/
def strictEq : JVal → JVal → Bool
  | undefined, undefined => true
  | null, null => true
  | bool a, bool b => a == b
  | num a, num b => a == b
  | str a, str b => a == b
  | _, _ => false

mutual
/-- Value equality of a Firestore `where(field, "==", value)` filter: same
type and same content (maps are compared entry by entry). -/
def deepEq : JVal → JVal → Bool
  | undefined, undefined => true
  | null, null => true
  | bool a, bool b => a == b
  | num a, num b => a == b
  | str a, str b => a == b
  | arr xs, arr ys => deepEqList xs ys
  | obj xs, obj ys => deepEqEntries xs ys
  | _, _ => false
/-- Elementwise `deepEq` on arrays. -/
def deepEqList : List JVal → List JVal → Bool
  | [], [] => true
  | x :: xs, y :: ys => deepEq x y && deepEqList xs ys
  | _, _ => false
/-- Entrywise `deepEq` on maps. -/
def deepEqEntries : Entries → Entries → Bool
  | [], [] => true
  | (k, x) :: xs, (l, y) :: ys => k == l && deepEq x y && deepEqEntries xs ys
  | _, _ => false
end

mutual
/-- Whether the string conversion of a template literal `${v}` throws a
`TypeError`.  Primitives convert.  An object converts through the inherited
`toString` unless it has an own property named `toString`: parsed JSON and
stored data hold no functions, so an own `toString` is not callable, the
fallback `valueOf` yields no primitive, and the conversion throws.  An array
converts by joining its elements, each converted in turn (`null` and
`undefined` as the empty string). -/
def toStringThrows : JVal → Bool
  | obj entries => (lookupLast "toString" entries).isSome
  | arr items => toStringThrowsList items
  | _ => false
/-- Whether the conversion of some element of an array throws. -/
def toStringThrowsList : List JVal → Bool
  | [] => false
  | x :: xs => toStringThrows x || toStringThrowsList xs
end

end JVal

/-! ## The reservation collection -/

/-- A document of the `reservations` collection: the storage-assigned key
(`docSnap.id`) and the stored fields (`docSnap.data()`). -/
structure DocSnap where
  id : String
  data : Entries

/-- The `reservations` collection. -/
abbrev Store := List DocSnap

/-- The documents selected by
`query(collection(db, "reservations"), where("reservationId", "==", v))`. -/
def Store.whereReservationId (db : Store) (v : JVal) : List DocSnap :=
  db.filter fun d =>
    match lookupLast "reservationId" d.data with
    | some w => w.deepEq v
    | none => false

/-- The effect of `updateDoc(doc(db, "reservations", key), fields)` on the
collection: the fields are merged into the document stored under `key`;
the call is rejected (`none`) when there is no such document. -/
def Store.updateDoc (db : Store) (key : String) (fields : Entries) : Option Store :=
  if db.any (fun d => d.id == key) then
    some (db.map fun d => if d.id == key then { d with data := d.data ++ fields } else d)
  else
    none

/-- The two places where a document stores its verification code: the field
`qrData` (which holds the nested `verificationCode`) and the flat field
`qrVerificationCode`. -/
def codeFields (d : DocSnap) : Option JVal × Option JVal :=
  (lookupLast "qrData" d.data, lookupLast "qrVerificationCode" d.data)

/-- What one lookup attempt of the verifier meets: building or running the
query throws, or `getDocs` resolves to a snapshot with these documents. -/
inductive QueryResult where
  | rejected
  | snapshot (docs : List DocSnap)

/-- The services the verifier calls.  `JSONparse` is `JSON.parse` (`none`:
it throws).  `getDocs i v` is the result of the lookup attempt made with
`retryCount = i` for the reservation id `v`. -/
structure Backend where
  JSONparse : String → Option JVal
  getDocs : Nat → JVal → QueryResult

/-- A backend over a collection that answers every lookup, for reservation ids
that `where` accepts as a value (every string is one). -/
def Store.backend (parse : String → Option JVal) (db : Store) : Backend :=
  { JSONparse := parse
    getDocs := fun _ v => .snapshot (db.whereReservationId v) }

/-! ## Scanner screen -/

/-- The `scanResult` state of the scanner screen, shown by the result modal. -/
structure ScanResult where
  success : Bool
  message : String
  icon : String
deriving DecidableEq

/-- Calls that leave the screens, in program order. -/
inductive Event where
  /-- One lookup attempt for a reservation id. -/
  | getDocs (reservationId : JVal)
  /-- A wait on `setTimeout(resolve, ms)`. -/
  | sleep (ms : Nat)
  /-- One `updateDoc` call on a reservation document. -/
  | updateDoc (id : JVal) (fields : Entries)
  /-- One `showModal` call. -/
  | showModal (result : ScanResult)
  /-- The call `navigation.replace(screen, { reservation })`, scheduled after `ms`. -/
  | navigateReplace (ms : Nat) (screen : String) (reservation : JVal)
  /-- One `Alert.alert(title, message)` call. -/
  | alert (title message : String)
  /-- The call `navigation.goBack()`. -/
  | goBack

/-- Events that are lookup attempts. -/
def Event.isGetDocs : Event → Bool
  | .getDocs _ => true
  | _ => false

/-- Events that are writes to the collection. -/
def Event.isUpdateDoc : Event → Bool
  | .updateDoc _ _ => true
  | _ => false

/-- Events that are waits. -/
def Event.isSleep : Event → Bool
  | .sleep _ => true
  | _ => false

/-- Events that open another screen through `navigation.replace`. -/
def Event.isNavigateReplace : Event → Bool
  | .navigateReplace _ _ _ => true
  | _ => false

/-- The modal results shown by a run, in order. -/
def modalsOf : List Event → List ScanResult
  | [] => []
  | .showModal r :: rest => r :: modalsOf rest
  | _ :: rest => modalsOf rest

/-- The state of `QRScannerScreen` that `handleBarCodeScanned` reads or writes. -/
structure ScannerState where
  isProcessing : Bool
  scanned : Bool
  cameraActive : Bool
  showResultModal : Bool
  scanResult : ScanResult

/-- The state of a freshly mounted scanner screen. -/
def ScannerState.initial : ScannerState :=
  { isProcessing := false
    scanned := false
    cameraActive := true
    showResultModal := false
    scanResult := ⟨false, "", "close"⟩ }

/-- A run of a handler of the scanner screen: the state it leaves and the
events it produced. -/
structure ScanRun where
  state : ScannerState
  events : List Event

/-- The modal of the `JSON.parse` catch (outcome `InvalidFormat`). -/
def invalidFormatModal : ScanResult :=
  ⟨false, "This QR code is not valid.\nPlease scan a valid reservation QR code.", "scan"⟩

/-- The modal of the field check (outcome `MissingFields`). -/
def missingFieldsModal : ScanResult :=
  ⟨false, "This QR code is missing required information.\nIt may not be from our system.", "qr-code"⟩

/-- The modal shown when the retry loop ends without a reservation (outcome `NotFound`). -/
def notFoundModal : ScanResult :=
  ⟨false, "Reservation not found in our system.\nPlease ensure the QR code was generated properly.", "search"⟩

/-- The modal of the `cancelled` status check (outcome `Cancelled`). -/
def cancelledModal : ScanResult :=
  ⟨false, "This reservation has been cancelled.\nPlease contact the front desk for assistance.", "ban"⟩

/-- The modal of the `pending` status check (outcome `PendingConfirmation`). -/
def pendingModal : ScanResult :=
  ⟨false, "This reservation is still pending confirmation.\nPlease wait for confirmation before checking in.", "time"⟩

/-- The modal of the `checked-in` status check (outcome `AlreadyCheckedIn`). -/
def alreadyCheckedInModal : ScanResult :=
  ⟨false, "This reservation has already been checked in.\nCannot check in again.", "alert-circle"⟩

/-- The modal shown when no stored code is found (outcome `MisconfiguredCode`). -/
def misconfiguredModal : ScanResult :=
  ⟨false, "QR code not properly configured.\nPlease regenerate the QR code from the admin panel.", "warning"⟩

/-- The modal of the code comparison (outcome `CodeMismatch`). -/
def codeMismatchModal : ScanResult :=
  ⟨false, "Verification code mismatch.\nThis may be an old or regenerated QR code.", "key"⟩

/-- The modal of the outer `catch` (the generic failure, `StoreUnavailable`). -/
def scanFailedModal : ScanResult :=
  ⟨false, "Scanning failed.\nPlease try again or contact support.", "wifi"⟩

/-- The modal shown when every check passed. -/
def successModal : ScanResult :=
  ⟨true, "Reservation verified successfully!\nRedirecting to details...", "checkmark"⟩

/-- The state change of `showModal(success, message, icon)`. -/
def showModal (st : ScannerState) (r : ScanResult) : ScannerState :=
  { st with scanResult := r, showResultModal := true }

/-- The constant `maxRetries`. -/
def maxRetries : Nat := 3

/-- The snapshot `{ id: docSnap.id, ...docSnap.data() }`. -/
def reservationOf (docSnap : DocSnap) : JVal :=
  .obj (("id", .str docSnap.id) :: docSnap.data)

/-- The destructuring `const { reservationId, verificationCode } = parsed`:
a `TypeError` (`none`) when `parsed` is `null` or `undefined`. -/
def destructure (parsed : JVal) : Option (JVal × JVal) :=
  if parsed.isNullish then none
  else some (parsed.get "reservationId", parsed.get "verificationCode")

/-- The two fields of the parsed payload as they reach the field check: the
destructuring followed by the two log lines, whose template literals convert
`reservationId` and `verificationCode` to strings.  The result is `none` when
the destructuring or one of the two conversions throws a `TypeError`, which
the outer `catch` receives. -/
def payloadFields (parsed : JVal) : Option (JVal × JVal) :=
  match destructure parsed with
  | none => none
  | some (reservationId, verificationCode) =>
    if reservationId.toStringThrows || verificationCode.toStringThrows then none
    else some (reservationId, verificationCode)

/-- The loop `while (retryCount < maxRetries && !reservation)`, from a given
`retryCount` with `reservation` still `null`; it returns the reservation it
leaves in `reservation` and the events of its iterations.  An iteration that
finds a document leaves through `break`; an iteration whose lookup throws
goes through the `catch`, which only logs.  Every iteration increments
`retryCount`, so `fuel = maxRetries - retryCount` iterations always suffice. -/
def retryLoop (getDocs : Nat → JVal → QueryResult) (reservationId : JVal) :
    (fuel : Nat) → (retryCount : Nat) → Option JVal × List Event
  | 0, _ => (none, [])
  | fuel + 1, retryCount =>
    if retryCount < maxRetries then
      match getDocs retryCount reservationId with
      | .snapshot (docSnap :: _) =>
        (some (reservationOf docSnap), [.getDocs reservationId])
      | .snapshot [] =>
        let rest := retryLoop getDocs reservationId fuel (retryCount + 1)
        if retryCount < maxRetries - 1 then
          (rest.1, .getDocs reservationId :: .sleep 1000 :: rest.2)
        else
          (rest.1, .getDocs reservationId :: rest.2)
      | .rejected =>
        let rest := retryLoop getDocs reservationId fuel (retryCount + 1)
        (rest.1, .getDocs reservationId :: rest.2)
    else
      (none, [])

/-- The stored code `reservation.qrData?.verificationCode || reservation.qrVerificationCode`. -/
def storedVerificationCode (reservation : JVal) : JVal :=
  ((reservation.get "qrData").optGet "verificationCode").or (reservation.get "qrVerificationCode")

/-- The checks `handleBarCodeScanned` runs on the reservation it found, from
the status checks to the success branch: the modal it shows and the
navigation it schedules.  After the status checks the stored code is logged
through a template literal; when that conversion throws, the outer `catch`
shows the generic failure modal. -/
def checkReservation (reservation verificationCode : JVal) : List Event :=
  if (reservation.get "status").strictEq (.str "cancelled") then
    [.showModal cancelledModal]
  else if (reservation.get "status").strictEq (.str "pending") then
    [.showModal pendingModal]
  else if (reservation.get "status").strictEq (.str "checked-in") then
    [.showModal alreadyCheckedInModal]
  else if (storedVerificationCode reservation).toStringThrows then
    [.showModal scanFailedModal]
  else if !(storedVerificationCode reservation).truthy then
    [.showModal misconfiguredModal]
  else if !(verificationCode.strictEq (storedVerificationCode reservation)) then
    [.showModal codeMismatchModal]
  else
    [.showModal successModal, .navigateReplace 1500 "ReservationDetails" reservation]

/-- The three status checks of the verifier let the reservation through:
its status is none of `cancelled`, `pending`, `checked-in`. -/
def passesStatusGate (reservation : JVal) : Bool :=
  !(reservation.get "status").strictEq (.str "cancelled") &&
  !(reservation.get "status").strictEq (.str "pending") &&
  !(reservation.get "status").strictEq (.str "checked-in")

/-- The `try` block of `handleBarCodeScanned` together with its `catch`: the
events of a scan that was accepted.  A `TypeError` thrown while the fields of
the payload are read, or while the stored code is logged, ends in the outer
`catch`, which shows the generic failure modal. -/
def scanEvents (env : Backend) (data : String) : List Event :=
  match env.JSONparse data with
  | none => [.showModal invalidFormatModal]
  | some parsed =>
    match payloadFields parsed with
    | none => [.showModal scanFailedModal]
    | some (reservationId, verificationCode) =>
      if !reservationId.truthy || !verificationCode.truthy then
        [.showModal missingFieldsModal]
      else
        let found := retryLoop env.getDocs reservationId maxRetries 0
        match found.1 with
        | none => found.2 ++ [.showModal notFoundModal]
        | some reservation => found.2 ++ checkReservation reservation verificationCode

/-- The state the modals of a run leave: each `showModal` call sets
`scanResult` and opens the modal. -/
def applyModals (st : ScannerState) : List Event → ScannerState
  | [] => st
  | .showModal r :: rest => applyModals (showModal st r) rest
  | _ :: rest => applyModals st rest

/-- The handler `handleBarCodeScanned({ data })`. -/
def handleBarCodeScanned (env : Backend) (st : ScannerState) (data : String) : ScanRun :=
  if st.isProcessing || !st.cameraActive then
    { state := st, events := [] }
  else
    let st1 := { st with isProcessing := true, scanned := true, cameraActive := false }
    let events := scanEvents env data
    { state := { applyModals st1 events with isProcessing := false }, events := events }

/-- The collection after the writes recorded in a list of events have been
applied to it (a rejected write leaves it as it is). -/
def applyWrites (db : Store) : List Event → Store
  | [] => db
  | .updateDoc (.str key) fields :: rest => applyWrites ((db.updateDoc key fields).getD db) rest
  | _ :: rest => applyWrites db rest

/-- The function `resetScanner()`. -/
def resetScanner (st : ScannerState) : ScannerState :=
  { st with isProcessing := false, scanned := false, cameraActive := true }

/-- The completion callback of `hideModal()`: it closes the result modal and
resets the scanner. -/
def hideModal (st : ScannerState) : ScannerState :=
  resetScanner { st with showResultModal := false }

/-- What can happen on the scanner screen: the camera detects a code, or the
operator dismisses the result modal (its button runs `hideModal`). -/
inductive ScannerInput where
  | barCodeScanned (data : String)
  | dismiss

/-- The delivery of a detected code by the render of the screen: the camera
view is mounted only while `cameraActive`, and its `onBarcodeScanned` is
`scanned ? undefined : handleBarCodeScanned`. -/
def onBarcodeScanned (env : Backend) (st : ScannerState) (data : String) : ScanRun :=
  if st.cameraActive && !st.scanned then handleBarCodeScanned env st data
  else { state := st, events := [] }

/-- One step of the scanner screen. -/
def scannerStep (env : Backend) (st : ScannerState) : ScannerInput → ScanRun
  | .barCodeScanned data => onBarcodeScanned env st data
  | .dismiss => { state := hideModal st, events := [] }

/-- The scanner screen run on a sequence of inputs, one after the other. -/
def scannerRun (env : Backend) (st : ScannerState) : List ScannerInput → ScanRun
  | [] => { state := st, events := [] }
  | input :: rest =>
    { state := (scannerRun env (scannerStep env st input).state rest).state
      events := (scannerStep env st input).events ++
        (scannerRun env (scannerStep env st input).state rest).events }

/-! ## Reservation details screen -/

/-- The constant `status = reservation.status || "confirmed"` of the details screen. -/
def detailsStatus (reservation : JVal) : JVal :=
  (reservation.get "status").or (.str "confirmed")

/-- The constant `checkedIn = reservation.checkedIn || false` of the details screen. -/
def detailsCheckedIn (reservation : JVal) : JVal :=
  (reservation.get "checkedIn").or (.bool false)

/-- The test `canCheckIn()`: `status !== "checked-in" && !checkedIn`. -/
def canCheckIn (reservation : JVal) : Bool :=
  !((detailsStatus reservation).strictEq (.str "checked-in")) &&
    !(detailsCheckedIn reservation).truthy

/-- The fields `handleCheckIn` writes; `now` is `new Date().toISOString()`. -/
def checkInFields (now : String) : Entries :=
  [("status", .str "checked-in"), ("checkedIn", .bool true), ("checkInTime", .str now)]

/-- A run of `handleCheckIn`: the `loading` flag it leaves, the events it
produced and the collection after it. -/
structure DetailsRun where
  loading : Bool
  events : List Event
  db : Store

/-- The handler `handleCheckIn()` of the details screen opened on
`reservation`.  `reachable` tells whether the backend accepts writes; `doc`
throws for an id that is not a string, and `updateDoc` is rejected when the
backend is unreachable or holds no document under the id.  A string id is
taken as the document key, which it is when it holds no `/` (storage keys
hold none). -/
def handleCheckIn (now : String) (reachable : Bool) (db : Store) (loading : Bool)
    (reservation : JVal) : DetailsRun :=
  if !canCheckIn reservation then
    { loading := loading, events := [], db := db }
  else if !(reservation.get "id").truthy then
    { loading := false, events := [.alert "Error" "Reservation ID missing."], db := db }
  else
    match reservation.get "id" with
    | .str key =>
      match (if reachable then db.updateDoc key (checkInFields now) else none) with
      | some db' =>
        { loading := false
          events := [.updateDoc (.str key) (checkInFields now),
            .alert "✅ Success" "Guest checked in successfully!", .goBack]
          db := db' }
      | none =>
        { loading := false
          events := [.updateDoc (.str key) (checkInFields now),
            .alert "❌ Error" "Failed to update check-in."]
          db := db }
    | _ =>
      { loading := false, events := [.alert "❌ Error" "Failed to update check-in."], db := db }

/-- The constant `verificationCode` the details screen displays:
`reservation.qrVerificationCode || reservation.qrData?.verificationCode || "N/A"`. -/
def displayedVerificationCode (reservation : JVal) : JVal :=
  ((reservation.get "qrVerificationCode").or
    ((reservation.get "qrData").optGet "verificationCode")).or (.str "N/A")

/-! ## Reservation management screen -/

/-- The fields the cancel handler of `ResDetailsScreen` writes; `updatedAt` is
the value stored for `new Date()`. -/
def cancelFields (updatedAt : JVal) : Entries :=
  [("status", .str "cancelled"), ("updatedAt", updatedAt)]

/-- The render condition of the Cancel button of `ResDetailsScreen`:
`reservationData.status === 'confirmed'`. -/
def cancelButtonShown (reservationData : JVal) : Bool :=
  (reservationData.get "status").strictEq (.str "confirmed")

/-- A run of a handler of `ResDetailsScreen`: the events it produced and the
collection after it. -/
structure ManageRun where
  events : List Event
  db : Store

/-- The handler `handleCancelReservation()` of `ResDetailsScreen` opened on
`reservationData`.  It asks for confirmation; `pressYes` tells whether the
operator presses "Yes, Cancel", whose callback makes the write.  `doc` throws
for an id that is not a non-empty string, and `updateDoc` is rejected when the
backend is unreachable or holds no document under the id; both end in the
`catch`.  A string id is taken as the document key, which it is when it holds
no `/` (storage keys hold none). -/
def handleCancelReservation (updatedAt : JVal) (reachable : Bool) (db : Store)
    (reservationData : JVal) (pressYes : Bool) : ManageRun :=
  if !pressYes then
    { events := [.alert "Cancel Reservation" "Are you sure you want to cancel this reservation?"]
      db := db }
  else
    match reservationData.get "id" with
    | .str key =>
      if key = "" then
        { events := [.alert "Cancel Reservation" "Are you sure you want to cancel this reservation?",
            .alert "Error" "Failed to cancel reservation"]
          db := db }
      else
        match (if reachable then db.updateDoc key (cancelFields updatedAt) else none) with
        | some db' =>
          { events := [.alert "Cancel Reservation" "Are you sure you want to cancel this reservation?",
              .updateDoc (.str key) (cancelFields updatedAt),
              .alert "Success" "Reservation cancelled successfully", .goBack]
            db := db' }
        | none =>
          { events := [.alert "Cancel Reservation" "Are you sure you want to cancel this reservation?",
              .updateDoc (.str key) (cancelFields updatedAt),
              .alert "Error" "Failed to cancel reservation"]
            db := db }
    | _ =>
      { events := [.alert "Cancel Reservation" "Are you sure you want to cancel this reservation?",
          .alert "Error" "Failed to cancel reservation"]
        db := db }

/-- The predicate "`checkedIn` is true if and only if `status` is `checked-in`"
on the stored fields of a reservation. -/
def checkedInMirrorsStatus (data : Entries) : Bool :=
  ((JVal.obj data).get "checkedIn").strictEq (.bool true) ==
    ((JVal.obj data).get "status").strictEq (.str "checked-in")

/-! ## User directory screen -/

/-- The state of `GuestsScreen` that the delete handlers read or write.
`selectedUser` is `null` when no account is selected. -/
structure GuestsState where
  users : List JVal
  admins : List JVal
  staff : List JVal
  selectedUser : JVal
  showDetailsModal : Bool
  deleting : Bool

/-- Calls that leave the user directory screen. -/
inductive GuestEvent where
  /-- One `Alert.alert(title, message)` call with a fixed message. -/
  | alert (title message : String)
  /-- The "Delete Account" confirmation, whose message interpolates `fullName`. -/
  | confirmDelete (fullName : JVal)
  /-- One `deleteDoc(doc(db, collectionName, id))` call. -/
  | deleteDoc (collectionName : String) (id : JVal)

/-- Events that are deletes sent to the backend. -/
def GuestEvent.isDeleteDoc : GuestEvent → Bool
  | .deleteDoc _ _ => true
  | _ => false

/-- A run of a handler of the user directory screen. -/
structure GuestsRun where
  state : GuestsState
  events : List GuestEvent

/-- The function `canDeleteUser(user)`. -/
def canDeleteUser (user : JVal) : Bool :=
  if (user.get "type").strictEq (.str "user") then true else false

/-- The `switch (selectedUser.type)` of `confirmDeleteAccount`; `none` is the
`default` branch, which throws. -/
def collectionNameOf (type : JVal) : Option String :=
  if type.strictEq (.str "admin") then some "admins"
  else if type.strictEq (.str "staff") then some "staff"
  else if type.strictEq (.str "user") then some "users"
  else none

/-- The list update `list.filter(user => user.id !== selectedUser.id)`. -/
def removeById (list : List JVal) (selectedUser : JVal) : List JVal :=
  list.filter fun user => !(user.get "id").strictEq (selectedUser.get "id")

/-- The function `confirmDeleteAccount()`.  `deleteAccepted` tells whether the
backend accepts the delete; `doc` throws for an id that is not a non-empty
string.  Every throw ends in the `catch`. -/
def confirmDeleteAccount (deleteAccepted : Bool) (st : GuestsState) : GuestsRun :=
  match collectionNameOf (st.selectedUser.get "type") with
  | none =>
    { state := { st with deleting := false }
      events := [.alert "Error" "Failed to delete account. Please check your permissions."] }
  | some collectionName =>
    match st.selectedUser.get "id" with
    | .str id =>
      if id = "" then
        { state := { st with deleting := false }
          events := [.alert "Error" "Failed to delete account. Please check your permissions."] }
      else if deleteAccepted then
        { state :=
            { users :=
                if (st.selectedUser.get "type").strictEq (.str "admin") then st.users
                else if (st.selectedUser.get "type").strictEq (.str "staff") then st.users
                else removeById st.users st.selectedUser
              admins :=
                if (st.selectedUser.get "type").strictEq (.str "admin") then
                  removeById st.admins st.selectedUser
                else st.admins
              staff :=
                if (st.selectedUser.get "type").strictEq (.str "admin") then st.staff
                else if (st.selectedUser.get "type").strictEq (.str "staff") then
                  removeById st.staff st.selectedUser
                else st.staff
              selectedUser := .null
              showDetailsModal := false
              deleting := false }
          events := [.deleteDoc collectionName (.str id),
            .alert "Success" "Account deleted successfully"] }
      else
        { state := { st with deleting := false }
          events := [.deleteDoc collectionName (.str id),
            .alert "Error" "Failed to delete account. Please check your permissions."] }
    | _ =>
      { state := { st with deleting := false }
        events := [.alert "Error" "Failed to delete account. Please check your permissions."] }

/-- The handler `handleDeleteAccount()`.  `pressDelete` tells whether the
operator presses "Delete" in the confirmation, which runs
`confirmDeleteAccount`.  The message of the confirmation interpolates
`selectedUser.fullName`; when that conversion throws, the handler ends there
with nothing shown. -/
def handleDeleteAccount (deleteAccepted pressDelete : Bool) (st : GuestsState) : GuestsRun :=
  if !st.selectedUser.truthy then
    { state := st, events := [] }
  else if !canDeleteUser st.selectedUser then
    { state := st
      events := [.alert "Permission Denied"
        "You can only delete customer accounts. Staff and admin accounts require higher permissions."] }
  else if (st.selectedUser.get "fullName").toStringThrows then
    { state := st, events := [] }
  else if !pressDelete then
    { state := st, events := [.confirmDelete (st.selectedUser.get "fullName")] }
  else
    { state := (confirmDeleteAccount deleteAccepted st).state
      events := .confirmDelete (st.selectedUser.get "fullName") ::
        (confirmDeleteAccount deleteAccepted st).events }

/-! ## Login screen -/

/-- An error thrown by `signInWithEmailAndPassword`: its `code` (absent on an
error that is not an authentication error) and its `message`. -/
structure AuthError where
  code : Option String
  message : String

/-- Calls that leave the login screen. -/
inductive LoginEvent where
  /-- One `Alert.alert(title, message)` call. -/
  | alert (title message : String)
  /-- One `signInWithEmailAndPassword(auth, email, password)` call. -/
  | signIn (email password : String)

/-- Events that are sign-in calls. -/
def LoginEvent.isSignIn : LoginEvent → Bool
  | .signIn _ _ => true
  | _ => false

/-- A run of `handleLogin`: the `loading` flag it leaves and its events. -/
structure LoginRun where
  loading : Bool
  events : List LoginEvent

/-- The characters `String.prototype.trim` strips: the white space and line
terminator code points of ECMAScript. -/
def isJsWhiteSpace (c : Char) : Bool :=
  c.val = 0x9 || c.val = 0xA || c.val = 0xB || c.val = 0xC || c.val = 0xD || c.val = 0x20 ||
  c.val = 0xA0 || c.val = 0x1680 || (0x2000 ≤ c.val && c.val ≤ 0x200A) ||
  c.val = 0x2028 || c.val = 0x2029 || c.val = 0x202F || c.val = 0x205F ||
  c.val = 0x3000 || c.val = 0xFEFF

/-- The method `s.trim()`. -/
def jsTrim (s : String) : String :=
  String.mk ((s.toList.dropWhile isJsWhiteSpace).reverse.dropWhile isJsWhiteSpace).reverse

/-- The alert the `catch` of `handleLogin` shows for an error. -/
def loginErrorAlert (error : AuthError) : LoginEvent :=
  if error.code = some "auth/invalid-credential" then
    .alert "❌ Login Failed" "Invalid Admin ID or Admin Pass."
  else if error.code = some "auth/too-many-requests" then
    .alert "❌ Login Blocked" "Too many failed attempts. Please try again later."
  else if error.code = some "auth/invalid-email" then
    .alert "❌ Invalid Admin ID" "Please enter a valid Admin ID."
  else if error.code = some "auth/network-request-failed" then
    .alert "❌ Network Error" "Please check your internet connection."
  else
    .alert "❌ Login Failed" error.message

/-- The handler `handleLogin()` for the contents of the two fields.
`signIn email password` is the outcome of the sign-in call: `none` when it
resolves, the error when it throws. -/
def handleLogin (signIn : String → String → Option AuthError) (email password : String)
    (loading : Bool) : LoginRun :=
  if email = "" ∧ password = "" then
    { loading := loading
      events := [.alert "⚠️ Missing info" "Please enter both Admin ID and Admin Pass."] }
  else if email = "" then
    { loading := loading
      events := [.alert "⚠️ Missing Admin ID" "Please enter your Admin ID."] }
  else if password = "" then
    { loading := loading
      events := [.alert "⚠️ Missing Admin Pass" "Please enter your Admin Pass."] }
  else
    match signIn (jsTrim email) password with
    | none => { loading := false, events := [.signIn (jsTrim email) password] }
    | some error =>
      { loading := false, events := [.signIn (jsTrim email) password, loginErrorAlert error] }

/-! ## Example data -/

/-- The payload text of the examples of the specification. -/
def examplePayload : String :=
  "\x7b\"reservationId\":\"R-1001\",\"verificationCode\":\"AB12CD\"\x7d"

/-- The value `JSON.parse` returns on `examplePayload`. -/
def examplePayloadValue : JVal :=
  .obj [("reservationId", .str "R-1001"), ("verificationCode", .str "AB12CD")]

/-- A function that agrees with `JSON.parse` on the texts used in the examples:
`examplePayload`, the text `null`, and the text `R-1001`, which is not JSON. -/
def exampleParse (text : String) : Option JVal :=
  if text = examplePayload then some examplePayloadValue
  else if text = "null" then some .null
  else none

/-- A collection with one reservation, stored under the key `doc1`, with the
given status and further fields. -/
def exampleStore (status : String) (more : Entries) : Store :=
  [{ id := "doc1", data := [("reservationId", .str "R-1001"), ("status", .str status)] ++ more }]

/-- A backend on which every lookup attempt throws (the network is down). -/
def exampleOffline : Backend :=
  { JSONparse := exampleParse
    getDocs := fun _ _ => .rejected }

/-- A backend whose first lookup attempt throws, whose second finds nothing
and whose later attempts answer from a collection that holds the example
record, confirmed, with the scanned code in the flat field. -/
def exampleLate : Backend :=
  { JSONparse := exampleParse
    getDocs := fun i v =>
      if i = 0 then .rejected
      else if i = 1 then .snapshot []
      else .snapshot
        ((exampleStore "confirmed" [("qrVerificationCode", .str "AB12CD")]).whereReservationId v) }

/-! ## Basic facts about the embedding -/

theorem modalsOf_append (xs ys : List Event) :
    modalsOf (xs ++ ys) = modalsOf xs ++ modalsOf ys := by
  induction xs with
  | nil => rfl
  | cons e rest ih => cases e <;> simp [modalsOf, ih]

/-- The retry loop shows no modal. -/
theorem retryLoop_modals (getDocs : Nat → JVal → QueryResult) (rid : JVal) (fuel retryCount : Nat) :
    modalsOf (retryLoop getDocs rid fuel retryCount).2 = [] := by
  induction fuel generalizing retryCount with
  | zero => rfl
  | succ n ih =>
    unfold retryLoop
    split
    · split
      · rfl
      · split <;> simp [modalsOf, ih]
      · simp [modalsOf, ih]
    · rfl

/-- The retry loop issues no write. -/
theorem retryLoop_no_updateDoc (getDocs : Nat → JVal → QueryResult) (rid : JVal)
    (fuel retryCount : Nat) :
    (retryLoop getDocs rid fuel retryCount).2.filter Event.isUpdateDoc = [] := by
  induction fuel generalizing retryCount with
  | zero => rfl
  | succ n ih =>
    unfold retryLoop
    split
    · split
      · rfl
      · split <;> simp [Event.isUpdateDoc, ih]
      · simp [Event.isUpdateDoc, ih]
    · rfl

/-- The loop never runs out of fuel: any fuel of at least
`maxRetries - retryCount` gives the result of exactly that much fuel. -/
theorem retryLoop_fuel (getDocs : Nat → JVal → QueryResult) (rid : JVal) (fuel retryCount : Nat)
    (h : maxRetries - retryCount ≤ fuel) :
    retryLoop getDocs rid fuel retryCount =
      retryLoop getDocs rid (maxRetries - retryCount) retryCount := by
  induction fuel generalizing retryCount with
  | zero =>
    have h0 : maxRetries - retryCount = 0 := by omega
    rw [h0]
  | succ n ih =>
    by_cases hlt : retryCount < maxRetries
    · have hs : maxRetries - retryCount = (maxRetries - (retryCount + 1)) + 1 := by omega
      have hn : maxRetries - (retryCount + 1) ≤ n := by omega
      rw [hs]
      simp only [retryLoop, hlt, if_true]
      rw [ih (retryCount + 1) hn]
    · have h0 : maxRetries - retryCount = 0 := by omega
      rw [h0]
      simp [retryLoop, hlt]

/-- A scan that arrives while the scanner is accepting runs the `try` block. -/
theorem handleBarCodeScanned_events (env : Backend) (st : ScannerState) (data : String)
    (hproc : st.isProcessing = false) (hcam : st.cameraActive = true) :
    (handleBarCodeScanned env st data).events = scanEvents env data := by
  simp [handleBarCodeScanned, hproc, hcam]

/-- The events of an accepted scan whose payload is well formed and whose
lookup found a reservation. -/
theorem scanEvents_found (env : Backend) (data : String) (parsed rid vc r : JVal)
    (hparse : env.JSONparse data = some parsed) (hfields : payloadFields parsed = some (rid, vc))
    (hrid : rid.truthy = true) (hvc : vc.truthy = true)
    (hfound : (retryLoop env.getDocs rid maxRetries 0).1 = some r) :
    scanEvents env data = (retryLoop env.getDocs rid maxRetries 0).2 ++ checkReservation r vc := by
  simp [scanEvents, hparse, hfields, hrid, hvc, hfound]

/-- The checks on a found reservation issue no write. -/
theorem checkReservation_no_updateDoc (r vc : JVal) :
    (checkReservation r vc).filter Event.isUpdateDoc = [] := by
  unfold checkReservation
  repeat' split
  all_goals simp [Event.isUpdateDoc]

theorem applyModals_eq_foldl (st : ScannerState) (events : List Event) :
    applyModals st events = (modalsOf events).foldl showModal st := by
  induction events generalizing st with
  | nil => rfl
  | cons e rest ih => cases e <;> simp [applyModals, modalsOf, ih]

/-- An accepted scan that shows exactly one modal leaves that modal open in
the state, with the in-progress flag cleared. -/
theorem handleBarCodeScanned_state (env : Backend) (st : ScannerState) (data : String)
    (m : ScanResult) (hproc : st.isProcessing = false) (hcam : st.cameraActive = true)
    (hmodal : modalsOf (scanEvents env data) = [m]) :
    (handleBarCodeScanned env st data).state =
      { isProcessing := false, scanned := true, cameraActive := false,
        showResultModal := true, scanResult := m } := by
  simp [handleBarCodeScanned, hproc, hcam, applyModals_eq_foldl, hmodal, showModal]

/-- When every lookup attempt returns an empty snapshot, the loop makes three
attempts with a wait after the first and after the second, and finds nothing. -/
theorem retryLoop_all_empty (getDocs : Nat → JVal → QueryResult) (rid : JVal)
    (hnone : ∀ i, i < maxRetries → getDocs i rid = .snapshot []) :
    retryLoop getDocs rid maxRetries 0 =
      (none, [.getDocs rid, .sleep 1000, .getDocs rid, .sleep 1000, .getDocs rid]) := by
  have h0 := hnone 0 (by decide)
  have h1 := hnone 1 (by decide)
  have h2 := hnone 2 (by decide)
  simp [retryLoop, maxRetries, h0, h1, h2]

/-- The events of a found reservation that passed the status checks. -/
theorem checkReservation_of_gate (r vc : JVal) (hgate : passesStatusGate r = true) :
    checkReservation r vc =
      if (storedVerificationCode r).toStringThrows = true then [.showModal scanFailedModal]
      else if (storedVerificationCode r).truthy = false then [.showModal misconfiguredModal]
      else if vc.strictEq (storedVerificationCode r) = false then [.showModal codeMismatchModal]
      else [.showModal successModal, .navigateReplace 1500 "ReservationDetails" r] := by
  simp only [passesStatusGate, Bool.and_eq_true, Bool.not_eq_true'] at hgate
  obtain ⟨⟨h1, h2⟩, h3⟩ := hgate
  simp [checkReservation, h1, h2, h3]

/-- A value strictly equal to another is a primitive, whose string conversion
does not throw. -/
theorem toStringThrows_of_strictEq (a b : JVal) (h : a.strictEq b = true) :
    b.toStringThrows = false := by
  cases a <;> cases b <;> simp_all [JVal.strictEq, JVal.toStringThrows]

/-- A falsy value is a primitive, whose string conversion does not throw. -/
theorem toStringThrows_of_falsy (v : JVal) (h : v.truthy = false) :
    v.toStringThrows = false := by
  cases v <;> simp_all [JVal.truthy, JVal.toStringThrows]

/-- The fields of a payload that reached the field check converted to strings. -/
theorem payloadFields_coercible (parsed rid vc : JVal)
    (h : payloadFields parsed = some (rid, vc)) :
    destructure parsed = some (rid, vc) ∧ rid.toStringThrows = false ∧
      vc.toStringThrows = false := by
  unfold payloadFields at h
  split at h
  · cases h
  · rename_i a b hd
    split at h
    · cases h
    · rename_i hc
      simp only [Option.some.injEq, Prod.mk.injEq] at h
      obtain ⟨rfl, rfl⟩ := h
      simp only [Bool.or_eq_true, not_or, Bool.not_eq_true] at hc
      exact ⟨hd, hc.1, hc.2⟩

/-- Strict equality with a string holds for that string only. -/
theorem strictEq_str_iff (v : JVal) (s : String) : v.strictEq (.str s) = true ↔ v = .str s := by
  cases v <;> simp [JVal.strictEq]

/-- What an accepted scan of a well-formed payload does once the lookup has
found a reservation: the events of the lookup followed by those of the checks,
the modal of the checks, and no write. -/
theorem handleBarCodeScanned_found (env : Backend) (st : ScannerState) (data : String)
    (parsed rid vc r : JVal)
    (hproc : st.isProcessing = false) (hcam : st.cameraActive = true)
    (hparse : env.JSONparse data = some parsed) (hfields : payloadFields parsed = some (rid, vc))
    (hrid : rid.truthy = true) (hvc : vc.truthy = true)
    (hfound : (retryLoop env.getDocs rid maxRetries 0).1 = some r) :
    (handleBarCodeScanned env st data).events =
      (retryLoop env.getDocs rid maxRetries 0).2 ++ checkReservation r vc ∧
    modalsOf (handleBarCodeScanned env st data).events = modalsOf (checkReservation r vc) ∧
    (handleBarCodeScanned env st data).events.filter Event.isUpdateDoc = [] := by
  rw [handleBarCodeScanned_events env st data hproc hcam,
    scanEvents_found env data parsed rid vc r hparse hfields hrid hvc hfound]
  refine ⟨rfl, ?_, ?_⟩
  · rw [modalsOf_append, retryLoop_modals, List.nil_append]
  · rw [List.filter_append, retryLoop_no_updateDoc, checkReservation_no_updateDoc,
      List.append_nil]

theorem lookupLast_append (k : String) (xs ys : Entries) :
    lookupLast k (xs ++ ys) =
      match lookupLast k ys with
      | some w => some w
      | none => lookupLast k xs := by
  induction xs with
  | nil => cases h : lookupLast k ys <;> simp [lookupLast, h]
  | cons e rest ih =>
    obtain ⟨k', v⟩ := e
    have hcons : lookupLast k ((k', v) :: rest ++ ys) =
        match lookupLast k (rest ++ ys) with
        | some w => some w
        | none => if k' = k then some v else none := rfl
    have hhead : lookupLast k ((k', v) :: rest) =
        match lookupLast k rest with
        | some w => some w
        | none => if k' = k then some v else none := rfl
    rw [hcons, hhead, ih]
    cases h : lookupLast k ys <;> cases h' : lookupLast k rest <;> simp

/-- A write of fields other than `reservationId` does not change which
documents a lookup selects, nor their order: it selects the updated documents. -/
theorem whereReservationId_updateDoc (db db' : Store) (key : String) (fields : Entries)
    (v : JVal) (hfields : lookupLast "reservationId" fields = none)
    (hupd : db.updateDoc key fields = some db') :
    db'.whereReservationId v =
      (db.whereReservationId v).map
        fun d => if d.id == key then { d with data := d.data ++ fields } else d := by
  unfold Store.updateDoc at hupd
  split at hupd
  · cases hupd
    unfold Store.whereReservationId
    rw [List.filter_map]
    congr 1
    apply List.filter_congr
    intro d _
    by_cases hk : d.id = key
    · simp [hk, lookupLast_append, hfields]
    · simp [hk]
  · cases hupd

/-- The verifier's events contain no write, so they leave a collection as it is. -/
theorem applyWrites_of_no_updateDoc (db : Store) (events : List Event)
    (h : events.filter Event.isUpdateDoc = []) : applyWrites db events = db := by
  induction events generalizing db with
  | nil => rfl
  | cons e rest ih =>
    cases e
    case updateDoc id fields => simp [List.filter, Event.isUpdateDoc] at h
    all_goals
      simp only [List.filter, Event.isUpdateDoc] at h
      simpa [applyWrites] using ih db h

/-- A payload whose two fields can be read (it does not parse to `null`, and
neither field is a value whose string conversion throws) and that lacks a
truthy `reservationId` or a truthy `verificationCode` ends with the
MissingFields modal as the only event of the scan. -/
theorem missingFields_of_non_null (env : Backend) (st : ScannerState) (data : String)
    (parsed rid vc : JVal)
    (hproc : st.isProcessing = false) (hcam : st.cameraActive = true)
    (hparse : env.JSONparse data = some parsed) (hfields : payloadFields parsed = some (rid, vc))
    (hmissing : rid.truthy = false ∨ vc.truthy = false) :
    (handleBarCodeScanned env st data).events = [.showModal missingFieldsModal] := by
  rw [handleBarCodeScanned_events env st data hproc hcam]
  rcases hmissing with h | h <;> simp [scanEvents, hparse, hfields, h]

/-- The `try` block of the verifier issues no write, whatever the payload and
the backend. -/
theorem scanEvents_no_updateDoc (env : Backend) (data : String) :
    (scanEvents env data).filter Event.isUpdateDoc = [] := by
  unfold scanEvents
  split
  · simp [Event.isUpdateDoc]
  · split
    · simp [Event.isUpdateDoc]
    · split
      · simp [Event.isUpdateDoc]
      · simp only []
        split
        · rw [List.filter_append, retryLoop_no_updateDoc]
          simp [Event.isUpdateDoc]
        · rw [List.filter_append, retryLoop_no_updateDoc, checkReservation_no_updateDoc]
          rfl

/-- The handler of the scanner issues no write, whether the scan is accepted
or ignored. -/
theorem handleBarCodeScanned_no_updateDoc (env : Backend) (st : ScannerState) (data : String) :
    (handleBarCodeScanned env st data).events.filter Event.isUpdateDoc = [] := by
  unfold handleBarCodeScanned
  split
  · rfl
  · exact scanEvents_no_updateDoc env data

/-- The checks on a found reservation show exactly one modal, one of seven. -/
theorem checkReservation_modal (r vc : JVal) :
    modalsOf (checkReservation r vc) = [cancelledModal] ∨
    modalsOf (checkReservation r vc) = [pendingModal] ∨
    modalsOf (checkReservation r vc) = [alreadyCheckedInModal] ∨
    modalsOf (checkReservation r vc) = [scanFailedModal] ∨
    modalsOf (checkReservation r vc) = [misconfiguredModal] ∨
    modalsOf (checkReservation r vc) = [codeMismatchModal] ∨
    modalsOf (checkReservation r vc) = [successModal] := by
  unfold checkReservation
  repeat' split
  all_goals simp [modalsOf]

theorem checkReservation_one_modal (r vc : JVal) :
    ∃ m, modalsOf (checkReservation r vc) = [m] := by
  rcases checkReservation_modal r vc with h | h | h | h | h | h | h <;> exact ⟨_, h⟩

/-- The `try` block of the verifier, with its `catch`, shows exactly one modal. -/
theorem scanEvents_one_modal (env : Backend) (data : String) :
    ∃ m, modalsOf (scanEvents env data) = [m] := by
  unfold scanEvents
  split
  · exact ⟨_, rfl⟩
  · split
    · exact ⟨_, rfl⟩
    · split
      · exact ⟨_, rfl⟩
      · simp only []
        split
        · rw [modalsOf_append, retryLoop_modals]
          exact ⟨_, rfl⟩
        · rw [modalsOf_append, retryLoop_modals, List.nil_append]
          exact checkReservation_one_modal _ _

/-- When every lookup attempt throws, the loop makes three attempts, without
waiting, and finds nothing. -/
theorem retryLoop_all_rejected (getDocs : Nat → JVal → QueryResult) (rid : JVal)
    (hthrow : ∀ i, i < maxRetries → getDocs i rid = .rejected) :
    retryLoop getDocs rid maxRetries 0 = (none, [.getDocs rid, .getDocs rid, .getDocs rid]) := by
  have h0 := hthrow 0 (by decide)
  have h1 := hthrow 1 (by decide)
  have h2 := hthrow 2 (by decide)
  simp [retryLoop, maxRetries, h0, h1, h2]

/-- On a collection that answers every lookup, the retry loop returns the
first document the first lookup selects. -/
theorem retryLoop_backend_found (parse : String → Option JVal) (db : Store) (rid : JVal)
    (d : DocSnap) (others : List DocSnap) (hlookup : db.whereReservationId rid = d :: others) :
    retryLoop (db.backend parse).getDocs rid maxRetries 0 =
      (some (reservationOf d), [.getDocs rid]) := by
  simp [retryLoop, maxRetries, Store.backend, hlookup]

/-- The events of an accepted scan of a well-formed payload on a collection
that answers every lookup and holds a record for the scanned id. -/
theorem handleBarCodeScanned_backend_found (parse : String → Option JVal) (db : Store)
    (st : ScannerState) (data : String) (parsed rid vc : JVal)
    (d : DocSnap) (others : List DocSnap)
    (hproc : st.isProcessing = false) (hcam : st.cameraActive = true)
    (hparse : parse data = some parsed) (hfields : payloadFields parsed = some (rid, vc))
    (hrid : rid.truthy = true) (hvc : vc.truthy = true)
    (hlookup : db.whereReservationId rid = d :: others) :
    (handleBarCodeScanned (db.backend parse) st data).events =
      .getDocs rid :: checkReservation (reservationOf d) vc := by
  have hloop := retryLoop_backend_found parse db rid d others hlookup
  obtain ⟨he, -, -⟩ := handleBarCodeScanned_found (db.backend parse) st data parsed rid vc
    (reservationOf d) hproc hcam hparse hfields hrid hvc (by rw [hloop])
  rw [he, hloop]
  rfl

/-- The write of `handleCheckIn`, run on the snapshot of the first record a
lookup selects: when check-in is allowed, the snapshot id is the storage key
and the backend accepts the write, the same lookup then selects the updated
record first. -/
theorem handleCheckIn_commit (db : Store) (rid : JVal) (d : DocSnap) (others : List DocSnap)
    (now : String) (loading : Bool)
    (hlookup : db.whereReservationId rid = d :: others)
    (hcan : canCheckIn (reservationOf d) = true)
    (hid : (reservationOf d).get "id" = .str d.id) (hkey : d.id ≠ "") :
    (handleCheckIn now true db loading (reservationOf d)).events =
      [.updateDoc (.str d.id) (checkInFields now),
        .alert "✅ Success" "Guest checked in successfully!", .goBack] ∧
    (handleCheckIn now true db loading (reservationOf d)).db.whereReservationId rid =
      { d with data := d.data ++ checkInFields now } ::
        others.map fun x =>
          if x.id == d.id then { x with data := x.data ++ checkInFields now } else x := by
  have hmem : d ∈ db := by
    have : d ∈ db.whereReservationId rid := by rw [hlookup]; exact List.mem_cons_self _ _
    exact (List.mem_filter.1 this).1
  have hany : db.any (fun x => x.id == d.id) = true :=
    List.any_eq_true.2 ⟨d, hmem, by simp⟩
  have hupd : db.updateDoc d.id (checkInFields now) =
      some (db.map fun x =>
        if x.id == d.id then { x with data := x.data ++ checkInFields now } else x) := by
    simp [Store.updateDoc, hany]
  have hrun : handleCheckIn now true db loading (reservationOf d) =
      { loading := false
        events := [.updateDoc (.str d.id) (checkInFields now),
          .alert "✅ Success" "Guest checked in successfully!", .goBack]
        db := db.map fun x =>
          if x.id == d.id then { x with data := x.data ++ checkInFields now } else x } := by
    simp [handleCheckIn, hcan, hid, JVal.truthy, hkey, hupd]
  rw [hrun]
  refine ⟨rfl, ?_⟩
  rw [whereReservationId_updateDoc db _ d.id (checkInFields now) rid rfl hupd, hlookup]
  simp

/-- The status of a snapshot is the last `status` entry of the stored fields. -/
theorem reservationOf_get_status_append (d : DocSnap) (now : String) :
    (reservationOf { d with data := d.data ++ checkInFields now }).get "status" =
      .str "checked-in" := by
  have h : lookupLast "status" (d.data ++ checkInFields now) = some (.str "checked-in") := by
    rw [lookupLast_append]; rfl
  simp [reservationOf, JVal.get, lookupLast, h]

/-- The retry loop opens no screen. -/
theorem retryLoop_no_navigate (getDocs : Nat → JVal → QueryResult) (rid : JVal)
    (fuel retryCount : Nat) :
    (retryLoop getDocs rid fuel retryCount).2.filter Event.isNavigateReplace = [] := by
  induction fuel generalizing retryCount with
  | zero => rfl
  | succ n ih =>
    unfold retryLoop
    split
    · split
      · rfl
      · split <;> simp [Event.isNavigateReplace, ih]
      · simp [Event.isNavigateReplace, ih]
    · rfl

/-- A write of fields other than `qrData` and `qrVerificationCode` leaves the
stored verification codes of every document as they were. -/
theorem updateDoc_codeFields (db db' : Store) (key : String) (fields : Entries)
    (h1 : lookupLast "qrData" fields = none) (h2 : lookupLast "qrVerificationCode" fields = none)
    (hupd : db.updateDoc key fields = some db') :
    db'.map codeFields = db.map codeFields := by
  unfold Store.updateDoc at hupd
  split at hupd
  · cases hupd
    rw [List.map_map]
    apply List.map_congr_left
    intro d _
    by_cases hk : d.id = key
    · simp [codeFields, hk, lookupLast_append, h1, h2]
    · simp [codeFields, hk]
  · cases hupd

/-- Strict equality with a string fails for every other value. -/
theorem strictEq_str_eq_false (v : JVal) (s : String) (h : v ≠ .str s) :
    v.strictEq (.str s) = false := by
  cases hs : v.strictEq (.str s)
  · rfl
  · exact absurd ((strictEq_str_iff v s).1 hs) h

/-- A write that the backend accepted was made by `Store.updateDoc`. -/
theorem accepted_write (reachable : Bool) (db db' : Store) (key : String) (fields : Entries)
    (h : (if reachable = true then db.updateDoc key fields else none) = some db') :
    db.updateDoc key fields = some db' := by
  cases reachable
  · simp at h
  · simpa using h

/-- What holds of every document after an accepted write: a document stored
under the key holds its former fields followed by the written ones, every
other document is as it was. -/
theorem updateDoc_forall (db db' : Store) (key : String) (fields : Entries)
    (P : Entries → Prop) (hupd : db.updateDoc key fields = some db')
    (hkey : ∀ d ∈ db, d.id = key → P (d.data ++ fields))
    (hother : ∀ d ∈ db, d.id ≠ key → P d.data) :
    ∀ d ∈ db', P d.data := by
  unfold Store.updateDoc at hupd
  split at hupd
  · cases hupd
    intro d hd
    obtain ⟨x, hx, rfl⟩ := List.mem_map.1 hd
    by_cases hk : x.id = key
    · simpa [hk] using hkey x hx hk
    · simpa [hk] using hother x hx hk
  · cases hupd

/-- After the check-in fields are written the flag mirrors the status. -/
theorem mirror_after_checkIn (data : Entries) (now : String) :
    checkedInMirrorsStatus (data ++ checkInFields now) = true := by
  have h1 : lookupLast "checkedIn" (data ++ checkInFields now) = some (.bool true) := by
    rw [lookupLast_append]; rfl
  have h2 : lookupLast "status" (data ++ checkInFields now) = some (.str "checked-in") := by
    rw [lookupLast_append]; rfl
  simp [checkedInMirrorsStatus, JVal.get, h1, h2, JVal.strictEq]

/-- Writing the cancel fields keeps the flag a mirror of the status when the
record was not checked in. -/
theorem mirror_after_cancel (data : Entries) (updatedAt : JVal)
    (hmirror : checkedInMirrorsStatus data = true)
    (hstatus : (JVal.obj data).get "status" ≠ .str "checked-in") :
    checkedInMirrorsStatus (data ++ cancelFields updatedAt) = true := by
  have h1 : lookupLast "checkedIn" (data ++ cancelFields updatedAt) =
      lookupLast "checkedIn" data := by
    rw [lookupLast_append]; rfl
  have h2 : lookupLast "status" (data ++ cancelFields updatedAt) = some (.str "cancelled") := by
    rw [lookupLast_append]; rfl
  have h3 := strictEq_str_eq_false _ _ hstatus
  simp only [checkedInMirrorsStatus, h3, beq_iff_eq] at hmirror
  simp only [JVal.get] at hmirror
  simp only [checkedInMirrorsStatus, JVal.get, h1, h2, Option.getD_some, hmirror]
  rfl

/-- The collection after `handleCheckIn`: as it was, or the result of the
accepted check-in update of the document named by the snapshot id. -/
theorem handleCheckIn_db (now : String) (reachable : Bool) (db : Store) (loading : Bool)
    (r : JVal) :
    (handleCheckIn now reachable db loading r).db = db ∨
    ∃ key db', r.get "id" = .str key ∧ db.updateDoc key (checkInFields now) = some db' ∧
      (handleCheckIn now reachable db loading r).db = db' := by
  unfold handleCheckIn
  split
  · exact Or.inl rfl
  · split
    · exact Or.inl rfl
    · split
      · rename_i key hid
        split
        · rename_i db' hw
          exact Or.inr ⟨key, db', hid, accepted_write _ _ _ _ _ hw, rfl⟩
        · exact Or.inl rfl
      · exact Or.inl rfl

/-- The collection after `handleCancelReservation`: as it was, or the result of
the accepted cancel update of the document named by the snapshot id. -/
theorem handleCancelReservation_db (updatedAt : JVal) (reachable : Bool) (db : Store)
    (rd : JVal) (pressYes : Bool) :
    (handleCancelReservation updatedAt reachable db rd pressYes).db = db ∨
    ∃ key db', rd.get "id" = .str key ∧ db.updateDoc key (cancelFields updatedAt) = some db' ∧
      (handleCancelReservation updatedAt reachable db rd pressYes).db = db' := by
  unfold handleCancelReservation
  split
  · exact Or.inl rfl
  · split
    · rename_i key hid
      split
      · exact Or.inl rfl
      · split
        · rename_i db' hw
          exact Or.inr ⟨key, db', hid, accepted_write _ _ _ _ _ hw, rfl⟩
        · exact Or.inl rfl
    · exact Or.inl rfl

/-- A reservation the retry loop returns is the snapshot of the first document
of the snapshot one of its attempts received. -/
theorem retryLoop_result (getDocs : Nat → JVal → QueryResult) (rid r : JVal)
    (fuel retryCount : Nat) (h : (retryLoop getDocs rid fuel retryCount).1 = some r) :
    ∃ i d rest, retryCount ≤ i ∧ i < maxRetries ∧ getDocs i rid = .snapshot (d :: rest) ∧
      r = reservationOf d := by
  induction fuel generalizing retryCount with
  | zero => simp [retryLoop] at h
  | succ n ih =>
    unfold retryLoop at h
    split at h
    · rename_i hlt
      split at h
      · rename_i d rest hq
        simp only [Option.some.injEq] at h
        exact ⟨retryCount, d, rest, Nat.le_refl _, hlt, hq, h.symm⟩
      · have h' : (retryLoop getDocs rid n (retryCount + 1)).1 = some r := by
          split at h <;> exact h
        obtain ⟨i, d, rest, hi, hi3, hq, hr⟩ := ih (retryCount + 1) h'
        exact ⟨i, d, rest, by omega, hi3, hq, hr⟩
      · obtain ⟨i, d, rest, hi, hi3, hq, hr⟩ := ih (retryCount + 1) h
        exact ⟨i, d, rest, by omega, hi3, hq, hr⟩
    · simp at h

/-- The snapshot of a document carries every stored field. -/
theorem reservationOf_get (d : DocSnap) (k : String) (v : JVal)
    (h : lookupLast k d.data = some v) : (reservationOf d).get k = v := by
  simp [reservationOf, JVal.get, lookupLast, h]

/-- The snapshot of a document that stores no field named `id` carries the
storage key as its id. -/
theorem reservationOf_get_id (d : DocSnap) (h : lookupLast "id" d.data = none) :
    (reservationOf d).get "id" = .str d.id := by
  simp [reservationOf, JVal.get, lookupLast, h]

/-- The checks on a found reservation show the generic failure modal only when
the string conversion of the stored code throws. -/
theorem checkReservation_scanFailed (r vc : JVal)
    (h : scanFailedModal ∈ modalsOf (checkReservation r vc)) :
    (storedVerificationCode r).toStringThrows = true := by
  unfold checkReservation at h
  repeat' split at h
  all_goals first
    | assumption
    | (exfalso; revert h; simp [modalsOf, successModal, cancelledModal, pendingModal,
        alreadyCheckedInModal, misconfiguredModal, codeMismatchModal, scanFailedModal])

/-- The checks that end with the success modal schedule the navigation to the
details of the reservation they checked. -/
theorem checkReservation_success (r vc : JVal)
    (h : modalsOf (checkReservation r vc) = [successModal]) :
    checkReservation r vc =
      [.showModal successModal, .navigateReplace 1500 "ReservationDetails" r] := by
  unfold checkReservation at h ⊢
  repeat' split
  all_goals first
    | rfl
    | (exfalso; revert h; simp [modalsOf, successModal, cancelledModal, pendingModal,
        alreadyCheckedInModal, misconfiguredModal, codeMismatchModal, scanFailedModal, *])

/-- From `retryCount` on, the loop makes at most `maxRetries - retryCount`
lookup attempts. -/
theorem retryLoop_getDocs_le (getDocs : Nat → JVal → QueryResult) (rid : JVal)
    (fuel retryCount : Nat) :
    ((retryLoop getDocs rid fuel retryCount).2.filter Event.isGetDocs).length ≤
      maxRetries - retryCount := by
  induction fuel generalizing retryCount with
  | zero => simp [retryLoop]
  | succ n ih =>
    have h := ih (retryCount + 1)
    unfold retryLoop
    split
    · rename_i hlt
      split
      · simp only [List.filter, Event.isGetDocs, List.length_cons, List.length_nil]
        omega
      · split <;> simp only [List.filter, Event.isGetDocs, List.length_cons] <;> omega
      · simp only [List.filter, Event.isGetDocs, List.length_cons]
        omega
    · simp

/-- From `retryCount` on, the loop waits at most `maxRetries - 1 - retryCount`
times. -/
theorem retryLoop_sleep_le (getDocs : Nat → JVal → QueryResult) (rid : JVal)
    (fuel retryCount : Nat) :
    ((retryLoop getDocs rid fuel retryCount).2.filter Event.isSleep).length ≤
      maxRetries - 1 - retryCount := by
  induction fuel generalizing retryCount with
  | zero => simp [retryLoop]
  | succ n ih =>
    have h := ih (retryCount + 1)
    unfold retryLoop
    split
    · rename_i hlt
      split
      · simp [List.filter, Event.isSleep]
      · split
        · simp only [List.filter, Event.isSleep, List.length_cons]
          omega
        · simp only [List.filter, Event.isSleep]
          omega
      · simp only [List.filter, Event.isSleep]
        omega
    · simp

/-- The checks on a found reservation make no lookup and do not wait. -/
theorem checkReservation_no_lookup (r vc : JVal) :
    (checkReservation r vc).filter Event.isGetDocs = [] ∧
    (checkReservation r vc).filter Event.isSleep = [] := by
  unfold checkReservation
  repeat' split
  all_goals simp [Event.isGetDocs, Event.isSleep]

/-- The lookups and waits of a scan are those of its retry loop, of which
there are at most three and at most two. -/
theorem scanEvents_lookups_le (env : Backend) (data : String) :
    ((scanEvents env data).filter Event.isGetDocs).length ≤ 3 ∧
    ((scanEvents env data).filter Event.isSleep).length ≤ 2 := by
  unfold scanEvents
  split
  · simp [Event.isGetDocs, Event.isSleep]
  · split
    · simp [Event.isGetDocs, Event.isSleep]
    · split
      · simp [Event.isGetDocs, Event.isSleep]
      · rename_i rid vc _ _
        have h1 := retryLoop_getDocs_le env.getDocs rid maxRetries 0
        have h2 := retryLoop_sleep_le env.getDocs rid maxRetries 0
        simp only [maxRetries] at h1 h2
        simp only []
        split
        · simp only [List.filter_append, List.length_append, maxRetries]
          simp only [List.filter, Event.isGetDocs, Event.isSleep, List.length_nil]
          omega
        · rename_i r _
          obtain ⟨h3, h4⟩ := checkReservation_no_lookup r vc
          simp only [List.filter_append, List.length_append, maxRetries, h3, h4,
            List.length_nil]
          omega

/-- The retry loop when attempt `j` is the first to receive a document: it
returns the snapshot of the first document received, after `j + 1` attempts. -/
theorem retryLoop_first_hit (getDocs : Nat → JVal → QueryResult) (rid : JVal) (j : Nat)
    (d : DocSnap) (rest : List DocSnap) (hj : j < maxRetries)
    (hmiss : ∀ i, i < j → getDocs i rid = .rejected ∨ getDocs i rid = .snapshot [])
    (hhit : getDocs j rid = .snapshot (d :: rest)) :
    (retryLoop getDocs rid maxRetries 0).1 = some (reservationOf d) ∧
    ((retryLoop getDocs rid maxRetries 0).2.filter Event.isGetDocs).length = j + 1 := by
  simp only [maxRetries] at hj
  interval_cases j
  · simp [retryLoop, maxRetries, hhit, Event.isGetDocs]
  · rcases hmiss 0 (by decide) with h0 | h0 <;>
      simp [retryLoop, maxRetries, hhit, h0, Event.isGetDocs]
  · rcases hmiss 0 (by decide) with h0 | h0 <;>
      rcases hmiss 1 (by decide) with h1 | h1 <;>
        simp [retryLoop, maxRetries, hhit, h0, h1, Event.isGetDocs]

/-- The details screen displays the code the verifier resolved whenever the
two locations do not both hold a value, or hold the same value. -/
theorem displayed_eq_stored (r : JVal)
    (hsome : (storedVerificationCode r).truthy = true)
    (hagree : ((r.get "qrData").optGet "verificationCode").truthy = false ∨
      (r.get "qrVerificationCode").truthy = false ∨
      (r.get "qrData").optGet "verificationCode" = r.get "qrVerificationCode") :
    displayedVerificationCode r = storedVerificationCode r := by
  unfold displayedVerificationCode storedVerificationCode JVal.or at *
  cases hn : ((r.get "qrData").optGet "verificationCode").truthy <;>
    cases hf : (r.get "qrVerificationCode").truthy <;>
    simp_all

/-- What a successful scan hands over: the one navigation it schedules is to
`ReservationDetails` with the reservation the retry loop returned, which is
the snapshot `{ id: docSnap.id, ...docSnap.data() }` of the first document
of the snapshot an attempt received.  It carries every stored field, and the
storage key as `id` when the record stores no field named `id`; the scan
wrote nothing, so the snapshot shows the status the record still has. -/
theorem success_hands_over_the_snapshot (env : Backend) (st : ScannerState)
    (data : String) (parsed rid vc r : JVal)
    (hproc : st.isProcessing = false) (hcam : st.cameraActive = true)
    (hparse : env.JSONparse data = some parsed) (hfields : payloadFields parsed = some (rid, vc))
    (hrid : rid.truthy = true) (hvc : vc.truthy = true)
    (hfound : (retryLoop env.getDocs rid maxRetries 0).1 = some r)
    (hsuccess : modalsOf (handleBarCodeScanned env st data).events = [successModal]) :
    (handleBarCodeScanned env st data).events.filter Event.isNavigateReplace =
      [.navigateReplace 1500 "ReservationDetails" r] ∧
    (∃ i d rest, i < maxRetries ∧ env.getDocs i rid = .snapshot (d :: rest) ∧
      r = reservationOf d ∧
      (∀ k v, lookupLast k d.data = some v → r.get k = v) ∧
      (lookupLast "id" d.data = none → r.get "id" = .str d.id)) ∧
    (∀ db : Store, applyWrites db (handleBarCodeScanned env st data).events = db) := by
  obtain ⟨he, hm, hw⟩ := handleBarCodeScanned_found env st data parsed rid vc r hproc hcam
    hparse hfields hrid hvc hfound
  rw [hm] at hsuccess
  have hchk := checkReservation_success r vc hsuccess
  refine ⟨?_, ?_, fun db => applyWrites_of_no_updateDoc db _ hw⟩
  · rw [he, List.filter_append, retryLoop_no_navigate, hchk]
    rfl
  · obtain ⟨i, d, rest, -, hi, hq, hr⟩ := retryLoop_result env.getDocs rid r maxRetries 0 hfound
    refine ⟨i, d, rest, hi, hq, hr, ?_, ?_⟩
    · intro k v hk
      rw [hr]
      exact reservationOf_get d k v hk
    · intro hk
      rw [hr]
      exact reservationOf_get_id d hk

/-! ## The verifier: claims C1 to C10 -/

/-- C1, as the code has it.  For every collection whose lookup for the scanned
reservation id returns first a reservation with status `confirmed` whose
stored code is the scanned code, an accepted scan succeeds: it makes one
lookup, shows the success modal and schedules the navigation to the details
screen with the snapshot of that reservation.  It issues no write: when it
has returned the collection is as it was.  The write is issued by
`handleCheckIn` of the details screen: run on that snapshot (for a record not
flagged `checkedIn`, whose snapshot id is its storage key, with the backend
accepting the write), it leaves a collection in which the lookup of the same
reservation id returns first the same record with `status = "checked-in"`,
`checkedIn = true` and `checkInTime` set to the time of the call. -/
theorem c1_verify_then_check_in (parse : String → Option JVal) (db : Store)
    (st : ScannerState) (data : String) (parsed rid : JVal) (code : String)
    (d : DocSnap) (others : List DocSnap) (now : String)
    (hproc : st.isProcessing = false) (hcam : st.cameraActive = true)
    (hparse : parse data = some parsed)
    (hfields : payloadFields parsed = some (rid, .str code))
    (hrid : rid.truthy = true) (hcode : code ≠ "")
    (hlookup : db.whereReservationId rid = d :: others)
    (hstatus : (reservationOf d).get "status" = .str "confirmed")
    (hstored : storedVerificationCode (reservationOf d) = .str code)
    (hflag : ((reservationOf d).get "checkedIn").truthy = false)
    (hid : (reservationOf d).get "id" = .str d.id) (hkey : d.id ≠ "") :
    (handleBarCodeScanned (db.backend parse) st data).events =
      [.getDocs rid, .showModal successModal,
        .navigateReplace 1500 "ReservationDetails" (reservationOf d)] ∧
    (handleBarCodeScanned (db.backend parse) st data).state.scanResult = successModal ∧
    applyWrites db (handleBarCodeScanned (db.backend parse) st data).events = db ∧
    (handleCheckIn now true db false (reservationOf d)).events =
      [.updateDoc (.str d.id) (checkInFields now),
        .alert "✅ Success" "Guest checked in successfully!", .goBack] ∧
    ∃ d', ((handleCheckIn now true db false (reservationOf d)).db.whereReservationId rid).head? =
        some d' ∧
      d'.id = d.id ∧
      lookupLast "status" d'.data = some (.str "checked-in") ∧
      lookupLast "checkedIn" d'.data = some (.bool true) ∧
      lookupLast "checkInTime" d'.data = some (.str now) := by
  have hvc : (JVal.str code).truthy = true := by simp [JVal.truthy, hcode]
  have hloop : retryLoop (db.backend parse).getDocs rid maxRetries 0 =
      (some (reservationOf d), [.getDocs rid]) := by
    simp [retryLoop, maxRetries, Store.backend, hlookup]
  have hgate : passesStatusGate (reservationOf d) = true := by
    simp [passesStatusGate, hstatus, JVal.strictEq]
  have hchk : checkReservation (reservationOf d) (.str code) =
      [.showModal successModal,
        .navigateReplace 1500 "ReservationDetails" (reservationOf d)] := by
    rw [checkReservation_of_gate _ _ hgate, hstored]
    simp [JVal.truthy, JVal.strictEq, JVal.toStringThrows, hcode]
  obtain ⟨he, -, hw⟩ := handleBarCodeScanned_found (db.backend parse) st data parsed rid
    (.str code) (reservationOf d) hproc hcam hparse hfields hrid hvc (by rw [hloop])
  rw [hloop, hchk] at he
  have hev : scanEvents (db.backend parse) data =
      [.getDocs rid, .showModal successModal,
        .navigateReplace 1500 "ReservationDetails" (reservationOf d)] := by
    rw [← handleBarCodeScanned_events (db.backend parse) st data hproc hcam]
    exact he
  have hstate := handleBarCodeScanned_state (db.backend parse) st data successModal hproc hcam
    (by rw [hev]; rfl)
  have hcan : canCheckIn (reservationOf d) = true := by
    have hco : detailsCheckedIn (reservationOf d) = .bool false := by
      simp [detailsCheckedIn, JVal.or, hflag]
    simp [canCheckIn, detailsStatus, hstatus, JVal.or, JVal.truthy, JVal.strictEq, hco]
  have hmem : d ∈ db := by
    have : d ∈ db.whereReservationId rid := by rw [hlookup]; exact List.mem_cons_self _ _
    exact (List.mem_filter.1 this).1
  have hany : db.any (fun x => x.id == d.id) = true :=
    List.any_eq_true.2 ⟨d, hmem, by simp⟩
  have hupd : db.updateDoc d.id (checkInFields now) =
      some (db.map fun x =>
        if x.id == d.id then { x with data := x.data ++ checkInFields now } else x) := by
    simp [Store.updateDoc, hany]
  have hrun : handleCheckIn now true db false (reservationOf d) =
      { loading := false
        events := [.updateDoc (.str d.id) (checkInFields now),
          .alert "✅ Success" "Guest checked in successfully!", .goBack]
        db := db.map fun x =>
          if x.id == d.id then { x with data := x.data ++ checkInFields now } else x } := by
    simp [handleCheckIn, hcan, hid, JVal.truthy, hkey, hupd]
  refine ⟨he, ?_, applyWrites_of_no_updateDoc db _ hw, ?_, ?_⟩
  · rw [hstate]
  · rw [hrun]
  · rw [hrun]
    refine ⟨{ d with data := d.data ++ checkInFields now }, ?_, rfl, ?_, ?_, ?_⟩
    · rw [whereReservationId_updateDoc db _ d.id (checkInFields now) rid rfl hupd, hlookup]
      simp
    · rw [lookupLast_append]; rfl
    · rw [lookupLast_append]; rfl
    · rw [lookupLast_append]; rfl

/-- C1 at the example payload against the example record of the
specification, `status: "confirmed"` with the scanned code in `qrData`. -/
theorem c1_verify_then_check_in_witness :
    (handleBarCodeScanned
      (Store.backend exampleParse
        (exampleStore "confirmed" [("qrData", .obj [("verificationCode", .str "AB12CD")])]))
      .initial examplePayload).state.scanResult = successModal ∧
    ∃ d', ((handleCheckIn "2025-01-01T10:00:00.000Z" true
        (exampleStore "confirmed" [("qrData", .obj [("verificationCode", .str "AB12CD")])]) false
        (reservationOf ⟨"doc1", [("reservationId", .str "R-1001"), ("status", .str "confirmed"),
          ("qrData", .obj [("verificationCode", .str "AB12CD")])]⟩)).db.whereReservationId
          (.str "R-1001")).head? = some d' ∧
      d'.id = "doc1" ∧
      lookupLast "status" d'.data = some (.str "checked-in") ∧
      lookupLast "checkedIn" d'.data = some (.bool true) ∧
      lookupLast "checkInTime" d'.data = some (.str "2025-01-01T10:00:00.000Z") :=
  have h := c1_verify_then_check_in exampleParse
    (exampleStore "confirmed" [("qrData", .obj [("verificationCode", .str "AB12CD")])])
    .initial examplePayload examplePayloadValue (.str "R-1001") "AB12CD"
    ⟨"doc1", [("reservationId", .str "R-1001"), ("status", .str "confirmed"),
      ("qrData", .obj [("verificationCode", .str "AB12CD")])]⟩ []
    "2025-01-01T10:00:00.000Z"
    rfl rfl rfl rfl rfl (by decide) rfl rfl rfl rfl rfl (by decide)
  ⟨h.2.1, h.2.2.2.2⟩

/-- C1 fails as stated.  At the example of the specification the verifier
succeeds, and when it has returned the lookup of `R-1001` still shows
`status = "confirmed"`, no `checkedIn` and no `checkInTime`. -/
theorem c1_verifier_leaves_status_confirmed :
    modalsOf (handleBarCodeScanned
      (Store.backend exampleParse
        (exampleStore "confirmed" [("qrData", .obj [("verificationCode", .str "AB12CD")])]))
      .initial examplePayload).events = [successModal] ∧
    ((applyWrites
      (exampleStore "confirmed" [("qrData", .obj [("verificationCode", .str "AB12CD")])])
      (handleBarCodeScanned
        (Store.backend exampleParse
          (exampleStore "confirmed" [("qrData", .obj [("verificationCode", .str "AB12CD")])]))
        .initial examplePayload).events).whereReservationId (.str "R-1001")).map
      (fun d => (lookupLast "status" d.data, lookupLast "checkedIn" d.data,
        lookupLast "checkInTime" d.data)) =
      [(some (.str "confirmed"), none, none)] :=
  ⟨rfl, rfl⟩

/-- C2. For every payload text on which `JSON.parse` throws, an accepted scan
ends with the InvalidFormat modal ("This QR code is not valid...") as its only
event: it makes no lookup attempt and no write. -/
theorem c2_invalid_json_makes_no_store_call (env : Backend) (st : ScannerState) (data : String)
    (hproc : st.isProcessing = false) (hcam : st.cameraActive = true)
    (hparse : env.JSONparse data = none) :
    (handleBarCodeScanned env st data).events = [.showModal invalidFormatModal] ∧
    (handleBarCodeScanned env st data).state.scanResult = invalidFormatModal ∧
    (handleBarCodeScanned env st data).state.showResultModal = true ∧
    (handleBarCodeScanned env st data).events.filter Event.isGetDocs = [] ∧
    (handleBarCodeScanned env st data).events.filter Event.isUpdateDoc = [] := by
  have hev : scanEvents env data = [.showModal invalidFormatModal] := by
    simp [scanEvents, hparse]
  have hst := handleBarCodeScanned_state env st data invalidFormatModal hproc hcam
    (by simp [hev, modalsOf])
  rw [handleBarCodeScanned_events env st data hproc hcam, hst, hev]
  simp [Event.isGetDocs, Event.isUpdateDoc]

/-- C2 at the text `R-1001`, which is not JSON, on an empty collection. -/
theorem c2_invalid_json_witness :
    (handleBarCodeScanned (Store.backend exampleParse []) .initial "R-1001").events =
      [.showModal invalidFormatModal] ∧
    (handleBarCodeScanned (Store.backend exampleParse []) .initial "R-1001").state.scanResult =
      invalidFormatModal ∧
    (handleBarCodeScanned (Store.backend exampleParse []) .initial "R-1001").state.showResultModal =
      true ∧
    (handleBarCodeScanned (Store.backend exampleParse []) .initial "R-1001").events.filter
      Event.isGetDocs = [] ∧
    (handleBarCodeScanned (Store.backend exampleParse []) .initial "R-1001").events.filter
      Event.isUpdateDoc = [] :=
  c2_invalid_json_makes_no_store_call (Store.backend exampleParse []) .initial "R-1001"
    rfl rfl rfl

/-- C3 fails at the payload text `null`.  `JSON.parse` returns `null`, the
destructuring of `null` throws, and the scan ends in the outer `catch` with
the generic "Scanning failed" modal instead of the MissingFields modal; no
lookup is made. -/
theorem c3_null_payload_ends_in_generic_failure :
    (handleBarCodeScanned (Store.backend exampleParse []) .initial "null").events =
      [.showModal scanFailedModal] ∧
    modalsOf (handleBarCodeScanned (Store.backend exampleParse []) .initial "null").events ≠
      [missingFieldsModal] :=
  ⟨rfl, by decide⟩

/-- C4. For every well-formed payload (both fields read from the payload, which
every string field is, and truthy) whose reservation id matches no record
(each of the three lookup attempts returns an empty snapshot), an accepted
scan makes exactly three lookup attempts, waits 1000 ms between consecutive
attempts, and then shows the NotFound modal. -/
theorem c4_not_found_after_three_lookups (env : Backend) (st : ScannerState) (data : String)
    (parsed rid vc : JVal)
    (hproc : st.isProcessing = false) (hcam : st.cameraActive = true)
    (hparse : env.JSONparse data = some parsed) (hfields : payloadFields parsed = some (rid, vc))
    (hrid : rid.truthy = true) (hvc : vc.truthy = true)
    (hnone : ∀ i, i < maxRetries → env.getDocs i rid = .snapshot []) :
    (handleBarCodeScanned env st data).events =
      [.getDocs rid, .sleep 1000, .getDocs rid, .sleep 1000, .getDocs rid,
        .showModal notFoundModal] ∧
    ((handleBarCodeScanned env st data).events.filter Event.isGetDocs).length = 3 ∧
    (handleBarCodeScanned env st data).state.scanResult = notFoundModal := by
  have hev : scanEvents env data =
      [.getDocs rid, .sleep 1000, .getDocs rid, .sleep 1000, .getDocs rid,
        .showModal notFoundModal] := by
    simp [scanEvents, hparse, hfields, hrid, hvc, retryLoop_all_empty env.getDocs rid hnone]
  have hst := handleBarCodeScanned_state env st data notFoundModal hproc hcam
    (by simp [hev, modalsOf])
  rw [handleBarCodeScanned_events env st data hproc hcam, hst, hev]
  simp [Event.isGetDocs]

/-- C4 at the example payload on an empty collection. -/
theorem c4_not_found_witness :
    (handleBarCodeScanned (Store.backend exampleParse []) .initial examplePayload).events =
      [.getDocs (.str "R-1001"), .sleep 1000, .getDocs (.str "R-1001"), .sleep 1000,
        .getDocs (.str "R-1001"), .showModal notFoundModal] ∧
    ((handleBarCodeScanned (Store.backend exampleParse []) .initial examplePayload).events.filter
      Event.isGetDocs).length = 3 ∧
    (handleBarCodeScanned (Store.backend exampleParse []) .initial examplePayload).state.scanResult =
      notFoundModal :=
  c4_not_found_after_three_lookups (Store.backend exampleParse []) .initial examplePayload
    examplePayloadValue (.str "R-1001") (.str "AB12CD") rfl rfl rfl rfl rfl rfl
    (fun _ _ => rfl)

/-- C5. For every found reservation whose status is `cancelled`, whatever the
scanned code (any truthy value the payload fields can be read with, every
non-empty string included) and whatever codes the record stores (or none), an
accepted scan ends with the Cancelled modal and issues no write. -/
theorem c5_cancelled_whatever_the_code (env : Backend) (st : ScannerState) (data : String)
    (parsed rid vc r : JVal)
    (hproc : st.isProcessing = false) (hcam : st.cameraActive = true)
    (hparse : env.JSONparse data = some parsed) (hfields : payloadFields parsed = some (rid, vc))
    (hrid : rid.truthy = true) (hvc : vc.truthy = true)
    (hfound : (retryLoop env.getDocs rid maxRetries 0).1 = some r)
    (hstatus : r.get "status" = .str "cancelled") :
    modalsOf (handleBarCodeScanned env st data).events = [cancelledModal] ∧
    (handleBarCodeScanned env st data).events.filter Event.isUpdateDoc = [] := by
  obtain ⟨-, hm, hw⟩ := handleBarCodeScanned_found env st data parsed rid vc r hproc hcam
    hparse hfields hrid hvc hfound
  refine ⟨?_, hw⟩
  rw [hm]
  simp [checkReservation, hstatus, JVal.strictEq, modalsOf]

/-- C5 at the example payload against a cancelled reservation that stores the
scanned code. -/
theorem c5_cancelled_witness :
    modalsOf (handleBarCodeScanned
      (Store.backend exampleParse (exampleStore "cancelled" [("qrVerificationCode", .str "AB12CD")]))
      .initial examplePayload).events = [cancelledModal] ∧
    (handleBarCodeScanned
      (Store.backend exampleParse (exampleStore "cancelled" [("qrVerificationCode", .str "AB12CD")]))
      .initial examplePayload).events.filter Event.isUpdateDoc = [] :=
  c5_cancelled_whatever_the_code
    (Store.backend exampleParse (exampleStore "cancelled" [("qrVerificationCode", .str "AB12CD")]))
    .initial examplePayload examplePayloadValue (.str "R-1001") (.str "AB12CD")
    (reservationOf ⟨"doc1", [("reservationId", .str "R-1001"), ("status", .str "cancelled"),
      ("qrVerificationCode", .str "AB12CD")]⟩)
    rfl rfl rfl rfl rfl rfl rfl rfl

/-- C6. For every found reservation with status `pending` an accepted scan ends
with the PendingConfirmation modal, and for every found reservation with
status `checked-in` it ends with the AlreadyCheckedIn modal, whatever the
scanned code (any truthy value the payload fields can be read with, every
non-empty string included) and the stored codes are: the modal directly
follows the lookup, before the stored code is read. -/
theorem c6_pending_and_checked_in_gate (env : Backend) (st : ScannerState) (data : String)
    (parsed rid vc r : JVal)
    (hproc : st.isProcessing = false) (hcam : st.cameraActive = true)
    (hparse : env.JSONparse data = some parsed) (hfields : payloadFields parsed = some (rid, vc))
    (hrid : rid.truthy = true) (hvc : vc.truthy = true)
    (hfound : (retryLoop env.getDocs rid maxRetries 0).1 = some r) :
    (r.get "status" = .str "pending" →
      (handleBarCodeScanned env st data).events =
        (retryLoop env.getDocs rid maxRetries 0).2 ++ [.showModal pendingModal] ∧
      modalsOf (handleBarCodeScanned env st data).events = [pendingModal]) ∧
    (r.get "status" = .str "checked-in" →
      (handleBarCodeScanned env st data).events =
        (retryLoop env.getDocs rid maxRetries 0).2 ++ [.showModal alreadyCheckedInModal] ∧
      modalsOf (handleBarCodeScanned env st data).events = [alreadyCheckedInModal]) := by
  obtain ⟨he, hm, -⟩ := handleBarCodeScanned_found env st data parsed rid vc r hproc hcam
    hparse hfields hrid hvc hfound
  rw [hm, he]
  constructor
  · intro hstatus
    have hc : checkReservation r vc = [.showModal pendingModal] := by
      simp [checkReservation, hstatus, JVal.strictEq]
    simp [hc, modalsOf]
  · intro hstatus
    have hc : checkReservation r vc = [.showModal alreadyCheckedInModal] := by
      simp [checkReservation, hstatus, JVal.strictEq]
    simp [hc, modalsOf]

/-- C6 at the example payload: against a pending reservation that stores the
scanned code, and against a checked-in reservation that stores no code. -/
theorem c6_gate_witness :
    modalsOf (handleBarCodeScanned
      (Store.backend exampleParse (exampleStore "pending" [("qrVerificationCode", .str "AB12CD")]))
      .initial examplePayload).events = [pendingModal] ∧
    modalsOf (handleBarCodeScanned (Store.backend exampleParse (exampleStore "checked-in" []))
      .initial examplePayload).events = [alreadyCheckedInModal] :=
  ⟨((c6_pending_and_checked_in_gate
      (Store.backend exampleParse (exampleStore "pending" [("qrVerificationCode", .str "AB12CD")]))
      .initial examplePayload examplePayloadValue (.str "R-1001") (.str "AB12CD")
      (reservationOf ⟨"doc1", [("reservationId", .str "R-1001"), ("status", .str "pending"),
        ("qrVerificationCode", .str "AB12CD")]⟩)
      rfl rfl rfl rfl rfl rfl rfl).1 rfl).2,
   ((c6_pending_and_checked_in_gate (Store.backend exampleParse (exampleStore "checked-in" []))
      .initial examplePayload examplePayloadValue (.str "R-1001") (.str "AB12CD")
      (reservationOf ⟨"doc1", [("reservationId", .str "R-1001"), ("status", .str "checked-in")]⟩)
      rfl rfl rfl rfl rfl rfl rfl).2 rfl).2⟩

/-- C7 fails on the code.  The verifier never reads the `checkedIn` flag: a
found reservation with `checkedIn = true`, status `confirmed` and the scanned
code stored is reported as verified and handed to the details screen, whose
own test `canCheckIn` treats the same snapshot as already checked in. -/
theorem c7_flag_is_not_read_by_the_verifier :
    (handleBarCodeScanned
      (Store.backend exampleParse (exampleStore "confirmed"
        [("checkedIn", .bool true), ("qrVerificationCode", .str "AB12CD")]))
      .initial examplePayload).events =
      [.getDocs (.str "R-1001"), .showModal successModal,
        .navigateReplace 1500 "ReservationDetails"
          (reservationOf ⟨"doc1", [("reservationId", .str "R-1001"),
            ("status", .str "confirmed"), ("checkedIn", .bool true),
            ("qrVerificationCode", .str "AB12CD")]⟩)] ∧
    canCheckIn
      (reservationOf ⟨"doc1", [("reservationId", .str "R-1001"), ("status", .str "confirmed"),
        ("checkedIn", .bool true), ("qrVerificationCode", .str "AB12CD")]⟩) = false :=
  ⟨rfl, rfl⟩

/-- C8. For every found reservation that passes the status checks, the stored
code the verifier compares the scanned code with is the nested
`qrData.verificationCode` when that holds a code (a truthy value, as `||`
tests, that the log line can render as text, as every string can), otherwise
the flat `qrVerificationCode`; and when neither holds a value the scan ends
with the MisconfiguredCode modal whatever the scanned code is. -/
theorem c8_code_resolution (env : Backend) (st : ScannerState) (data : String)
    (parsed rid vc r : JVal)
    (hproc : st.isProcessing = false) (hcam : st.cameraActive = true)
    (hparse : env.JSONparse data = some parsed) (hfields : payloadFields parsed = some (rid, vc))
    (hrid : rid.truthy = true) (hvc : vc.truthy = true)
    (hfound : (retryLoop env.getDocs rid maxRetries 0).1 = some r)
    (hgate : passesStatusGate r = true) :
    (((r.get "qrData").optGet "verificationCode").truthy = true →
      ((r.get "qrData").optGet "verificationCode").toStringThrows = false →
      storedVerificationCode r = (r.get "qrData").optGet "verificationCode" ∧
      modalsOf (handleBarCodeScanned env st data).events =
        [if vc.strictEq ((r.get "qrData").optGet "verificationCode") then successModal
          else codeMismatchModal]) ∧
    (((r.get "qrData").optGet "verificationCode").truthy = false →
      (r.get "qrVerificationCode").truthy = true →
      (r.get "qrVerificationCode").toStringThrows = false →
      storedVerificationCode r = r.get "qrVerificationCode" ∧
      modalsOf (handleBarCodeScanned env st data).events =
        [if vc.strictEq (r.get "qrVerificationCode") then successModal else codeMismatchModal]) ∧
    (((r.get "qrData").optGet "verificationCode").truthy = false →
      (r.get "qrVerificationCode").truthy = false →
      modalsOf (handleBarCodeScanned env st data).events = [misconfiguredModal]) := by
  obtain ⟨-, hm, -⟩ := handleBarCodeScanned_found env st data parsed rid vc r hproc hcam
    hparse hfields hrid hvc hfound
  rw [hm, checkReservation_of_gate r vc hgate]
  refine ⟨?_, ?_, ?_⟩
  · intro hn hcn
    have hs : storedVerificationCode r = (r.get "qrData").optGet "verificationCode" := by
      simp [storedVerificationCode, JVal.or, hn]
    rw [hs]
    refine ⟨rfl, ?_⟩
    cases hc : vc.strictEq ((r.get "qrData").optGet "verificationCode") <;>
      simp [hn, hcn, modalsOf]
  · intro hn hf hcf
    have hs : storedVerificationCode r = r.get "qrVerificationCode" := by
      simp [storedVerificationCode, JVal.or, hn]
    rw [hs]
    refine ⟨rfl, ?_⟩
    cases hc : vc.strictEq (r.get "qrVerificationCode") <;> simp [hf, hcf, modalsOf]
  · intro hn hf
    have hs : storedVerificationCode r = r.get "qrVerificationCode" := by
      simp [storedVerificationCode, JVal.or, hn]
    simp [hs, hf, toStringThrows_of_falsy _ hf, modalsOf]

/-- C8 at the example payload against three confirmed reservations: one that
stores the scanned code in `qrData` and another code in the flat field, one
that stores the scanned code in the flat field only, and one that stores no
code. -/
theorem c8_code_resolution_witness :
    modalsOf (handleBarCodeScanned
      (Store.backend exampleParse (exampleStore "confirmed"
        [("qrData", .obj [("verificationCode", .str "AB12CD")]),
          ("qrVerificationCode", .str "ZZ99")]))
      .initial examplePayload).events = [successModal] ∧
    modalsOf (handleBarCodeScanned
      (Store.backend exampleParse (exampleStore "confirmed" [("qrVerificationCode", .str "AB12CD")]))
      .initial examplePayload).events = [successModal] ∧
    modalsOf (handleBarCodeScanned (Store.backend exampleParse (exampleStore "confirmed" []))
      .initial examplePayload).events = [misconfiguredModal] :=
  ⟨((c8_code_resolution
      (Store.backend exampleParse (exampleStore "confirmed"
        [("qrData", .obj [("verificationCode", .str "AB12CD")]),
          ("qrVerificationCode", .str "ZZ99")]))
      .initial examplePayload examplePayloadValue (.str "R-1001") (.str "AB12CD")
      (reservationOf ⟨"doc1", [("reservationId", .str "R-1001"), ("status", .str "confirmed"),
        ("qrData", .obj [("verificationCode", .str "AB12CD")]),
        ("qrVerificationCode", .str "ZZ99")]⟩)
      rfl rfl rfl rfl rfl rfl rfl rfl).1 rfl rfl).2,
   ((c8_code_resolution
      (Store.backend exampleParse (exampleStore "confirmed" [("qrVerificationCode", .str "AB12CD")]))
      .initial examplePayload examplePayloadValue (.str "R-1001") (.str "AB12CD")
      (reservationOf ⟨"doc1", [("reservationId", .str "R-1001"), ("status", .str "confirmed"),
        ("qrVerificationCode", .str "AB12CD")]⟩)
      rfl rfl rfl rfl rfl rfl rfl rfl).2.1 rfl rfl rfl).2,
   (c8_code_resolution (Store.backend exampleParse (exampleStore "confirmed" []))
      .initial examplePayload examplePayloadValue (.str "R-1001") (.str "AB12CD")
      (reservationOf ⟨"doc1", [("reservationId", .str "R-1001"), ("status", .str "confirmed")]⟩)
      rfl rfl rfl rfl rfl rfl rfl rfl).2.2 rfl rfl⟩

/-- C9. For every found reservation with status `confirmed` that has no nested
`qrData.verificationCode` and whose flat `qrVerificationCode` is a non-empty
string `c`, an accepted scan of a payload whose `verificationCode` is `c`
succeeds: it shows the success modal and schedules the navigation to the
details of that reservation. -/
theorem c9_flat_code_fallback_succeeds (env : Backend) (st : ScannerState) (data : String)
    (parsed rid r : JVal) (c : String)
    (hproc : st.isProcessing = false) (hcam : st.cameraActive = true)
    (hparse : env.JSONparse data = some parsed)
    (hfields : payloadFields parsed = some (rid, .str c))
    (hrid : rid.truthy = true) (hc : c ≠ "")
    (hfound : (retryLoop env.getDocs rid maxRetries 0).1 = some r)
    (hstatus : r.get "status" = .str "confirmed")
    (hnested : (r.get "qrData").optGet "verificationCode" = .undefined)
    (hflat : r.get "qrVerificationCode" = .str c) :
    modalsOf (handleBarCodeScanned env st data).events = [successModal] ∧
    (handleBarCodeScanned env st data).events =
      (retryLoop env.getDocs rid maxRetries 0).2 ++
        [.showModal successModal, .navigateReplace 1500 "ReservationDetails" r] := by
  have hvc : (JVal.str c).truthy = true := by simp [JVal.truthy, hc]
  obtain ⟨he, hm, -⟩ := handleBarCodeScanned_found env st data parsed rid (.str c) r hproc hcam
    hparse hfields hrid hvc hfound
  have hgate : passesStatusGate r = true := by
    simp [passesStatusGate, hstatus, JVal.strictEq]
  have hs : storedVerificationCode r = .str c := by
    simp [storedVerificationCode, JVal.or, hnested, hflat, JVal.truthy]
  have hchk : checkReservation r (.str c) =
      [.showModal successModal, .navigateReplace 1500 "ReservationDetails" r] := by
    rw [checkReservation_of_gate r (.str c) hgate, hs]
    simp [JVal.truthy, JVal.strictEq, JVal.toStringThrows, hc]
  rw [hm, he, hchk]
  exact ⟨rfl, rfl⟩

/-- C9 at the example payload against a confirmed reservation that stores the
scanned code in the flat field only. -/
theorem c9_flat_code_witness :
    modalsOf (handleBarCodeScanned
      (Store.backend exampleParse (exampleStore "confirmed" [("qrVerificationCode", .str "AB12CD")]))
      .initial examplePayload).events = [successModal] :=
  (c9_flat_code_fallback_succeeds
    (Store.backend exampleParse (exampleStore "confirmed" [("qrVerificationCode", .str "AB12CD")]))
    .initial examplePayload examplePayloadValue (.str "R-1001")
    (reservationOf ⟨"doc1", [("reservationId", .str "R-1001"), ("status", .str "confirmed"),
      ("qrVerificationCode", .str "AB12CD")]⟩) "AB12CD"
    rfl rfl rfl rfl rfl (by decide) rfl rfl rfl rfl).1

/-- C10. For every found reservation that passes the status checks and whose
resolved stored code is the non-empty string `s`, an accepted scan ends with
the CodeMismatch modal exactly when the scanned `verificationCode` (any truthy
value the payload fields can be read with) is not the string `s` itself
(values are compared as they are: no trimming, no case folding, no conversion
between types), and it succeeds exactly when it is. -/
theorem c10_exact_code_comparison (env : Backend) (st : ScannerState) (data : String)
    (parsed rid vc r : JVal) (s : String)
    (hproc : st.isProcessing = false) (hcam : st.cameraActive = true)
    (hparse : env.JSONparse data = some parsed) (hfields : payloadFields parsed = some (rid, vc))
    (hrid : rid.truthy = true) (hvc : vc.truthy = true)
    (hfound : (retryLoop env.getDocs rid maxRetries 0).1 = some r)
    (hgate : passesStatusGate r = true)
    (hstored : storedVerificationCode r = .str s) (hs : s ≠ "") :
    (modalsOf (handleBarCodeScanned env st data).events = [codeMismatchModal] ↔ vc ≠ .str s) ∧
    (modalsOf (handleBarCodeScanned env st data).events = [successModal] ↔ vc = .str s) := by
  obtain ⟨-, hm, -⟩ := handleBarCodeScanned_found env st data parsed rid vc r hproc hcam
    hparse hfields hrid hvc hfound
  rw [hm, checkReservation_of_gate r vc hgate, hstored]
  have ht : (JVal.str s).truthy = true := by simp [JVal.truthy, hs]
  have hne : successModal ≠ codeMismatchModal := by decide
  by_cases heq : vc = .str s
  · have hse : vc.strictEq (.str s) = true := (strictEq_str_iff vc s).2 heq
    have hl : (if (JVal.str s).truthy = false then [Event.showModal misconfiguredModal]
        else if vc.strictEq (.str s) = false then [Event.showModal codeMismatchModal]
        else [Event.showModal successModal, Event.navigateReplace 1500 "ReservationDetails" r]) =
        [Event.showModal successModal, Event.navigateReplace 1500 "ReservationDetails" r] := by
      simp [ht, hse]
    rw [hl]
    exact ⟨⟨fun h => absurd (List.cons.inj h).1 hne, fun h => absurd heq h⟩,
      ⟨fun _ => heq, fun _ => rfl⟩⟩
  · have hse : vc.strictEq (.str s) = false := by
      cases h : vc.strictEq (.str s)
      · rfl
      · exact absurd ((strictEq_str_iff vc s).1 h) heq
    have hl : (if (JVal.str s).truthy = false then [Event.showModal misconfiguredModal]
        else if vc.strictEq (.str s) = false then [Event.showModal codeMismatchModal]
        else [Event.showModal successModal, Event.navigateReplace 1500 "ReservationDetails" r]) =
        [Event.showModal codeMismatchModal] := by
      simp [ht, hse]
    rw [hl]
    exact ⟨⟨fun _ => heq, fun _ => rfl⟩,
      ⟨fun h => absurd (List.cons.inj h).1.symm hne, fun h => absurd h heq⟩⟩

/-- C10 at the example payload (code `AB12CD`) against a confirmed reservation
that holds only `qrVerificationCode: "ZZ99"`: the scan ends with CodeMismatch. -/
theorem c10_code_mismatch_witness :
    modalsOf (handleBarCodeScanned
      (Store.backend exampleParse (exampleStore "confirmed" [("qrVerificationCode", .str "ZZ99")]))
      .initial examplePayload).events = [codeMismatchModal] :=
  (c10_exact_code_comparison
    (Store.backend exampleParse (exampleStore "confirmed" [("qrVerificationCode", .str "ZZ99")]))
    .initial examplePayload examplePayloadValue (.str "R-1001") (.str "AB12CD")
    (reservationOf ⟨"doc1", [("reservationId", .str "R-1001"), ("status", .str "confirmed"),
      ("qrVerificationCode", .str "ZZ99")]⟩) "ZZ99"
    rfl rfl rfl rfl rfl rfl rfl rfl rfl (by decide)).1.2 (by simp)

/-! ## Frame, failure and invariant claims: C11 to C20 -/

/-- C11. For every payload, every backend and every scanner state, the
verifier issues no write: the events of a run contain no `updateDoc`, on the
failure paths as on the success path, so every collection is left as it was
and at most one write (in fact none) is issued.  The one write of the flow is
issued by `handleCheckIn`, at most once per run. -/
theorem c11_verifier_issues_no_write (env : Backend) (st : ScannerState) (data : String) :
    (handleBarCodeScanned env st data).events.filter Event.isUpdateDoc = [] ∧
    (∀ db : Store, applyWrites db (handleBarCodeScanned env st data).events = db) ∧
    ((handleBarCodeScanned env st data).events.filter Event.isUpdateDoc).length ≤ 1 ∧
    (∀ (now : String) (reachable : Bool) (db : Store) (loading : Bool) (reservation : JVal),
      ((handleCheckIn now reachable db loading reservation).events.filter
        Event.isUpdateDoc).length ≤ 1) := by
  have h := handleBarCodeScanned_no_updateDoc env st data
  refine ⟨h, fun db => applyWrites_of_no_updateDoc db _ h, by rw [h]; decide, ?_⟩
  intro now reachable db loading reservation
  unfold handleCheckIn
  repeat' split
  all_goals simp [Event.isUpdateDoc]

/-- C12, as the code has it.  For every payload on which the verifier
succeeds (first record of the lookup `confirmed`, stored code equal to the
scanned code), a second accepted scan of the same payload on the collection
the verifier leaves succeeds again: the verifier wrote nothing.  Once
`handleCheckIn` has committed the check-in for the snapshot the verifier
handed over (record not flagged `checkedIn`, snapshot id equal to the storage
key, write accepted), a further scan of the same payload ends with the
AlreadyCheckedIn modal and issues no write, and `handleCheckIn` run on the
updated record does nothing. -/
theorem c12_second_scan_after_check_in (parse : String → Option JVal) (db : Store)
    (st st2 : ScannerState) (data : String) (parsed rid : JVal) (code : String)
    (d : DocSnap) (others : List DocSnap) (now : String)
    (hproc : st.isProcessing = false) (hcam : st.cameraActive = true)
    (hproc2 : st2.isProcessing = false) (hcam2 : st2.cameraActive = true)
    (hparse : parse data = some parsed)
    (hfields : payloadFields parsed = some (rid, .str code))
    (hrid : rid.truthy = true) (hcode : code ≠ "")
    (hlookup : db.whereReservationId rid = d :: others)
    (hstatus : (reservationOf d).get "status" = .str "confirmed")
    (hstored : storedVerificationCode (reservationOf d) = .str code)
    (hflag : ((reservationOf d).get "checkedIn").truthy = false)
    (hid : (reservationOf d).get "id" = .str d.id) (hkey : d.id ≠ "") :
    modalsOf (handleBarCodeScanned (db.backend parse) st data).events = [successModal] ∧
    modalsOf (handleBarCodeScanned
      ((applyWrites db (handleBarCodeScanned (db.backend parse) st data).events).backend parse)
      st2 data).events = [successModal] ∧
    modalsOf (handleBarCodeScanned
      ((handleCheckIn now true db false (reservationOf d)).db.backend parse) st2 data).events =
      [alreadyCheckedInModal] ∧
    (handleBarCodeScanned
      ((handleCheckIn now true db false (reservationOf d)).db.backend parse) st2 data).events.filter
      Event.isUpdateDoc = [] ∧
    ∀ (now2 : String) (reachable : Bool) (db2 : Store) (loading : Bool),
      (handleCheckIn now2 reachable db2 loading
        (reservationOf { d with data := d.data ++ checkInFields now })).events = [] := by
  have hvc : (JVal.str code).truthy = true := by simp [JVal.truthy, hcode]
  have hgate : passesStatusGate (reservationOf d) = true := by
    simp [passesStatusGate, hstatus, JVal.strictEq]
  have hchk : checkReservation (reservationOf d) (.str code) =
      [.showModal successModal,
        .navigateReplace 1500 "ReservationDetails" (reservationOf d)] := by
    rw [checkReservation_of_gate _ _ hgate, hstored]
    simp [JVal.truthy, JVal.strictEq, JVal.toStringThrows, hcode]
  have hfirst : ∀ s : ScannerState, s.isProcessing = false → s.cameraActive = true →
      modalsOf (handleBarCodeScanned (db.backend parse) s data).events = [successModal] := by
    intro s hs1 hs2
    rw [handleBarCodeScanned_backend_found parse db s data parsed rid (.str code) d others
      hs1 hs2 hparse hfields hrid hvc hlookup, hchk]
    rfl
  have hcan : canCheckIn (reservationOf d) = true := by
    have hco : detailsCheckedIn (reservationOf d) = .bool false := by
      simp [detailsCheckedIn, JVal.or, hflag]
    simp [canCheckIn, detailsStatus, hstatus, JVal.or, JVal.truthy, JVal.strictEq, hco]
  obtain ⟨-, hlookup2⟩ := handleCheckIn_commit db rid d others now false hlookup hcan hid hkey
  have hstatus2 := reservationOf_get_status_append d now
  refine ⟨hfirst st hproc hcam, ?_, ?_, handleBarCodeScanned_no_updateDoc _ _ _, ?_⟩
  · rw [applyWrites_of_no_updateDoc db _ (handleBarCodeScanned_no_updateDoc _ _ _)]
    exact hfirst st2 hproc2 hcam2
  · rw [handleBarCodeScanned_backend_found parse _ st2 data parsed rid (.str code) _ _
      hproc2 hcam2 hparse hfields hrid hvc hlookup2]
    simp [checkReservation, hstatus2, JVal.strictEq, modalsOf]
  · intro now2 reachable db2 loading
    simp [handleCheckIn, canCheckIn, detailsStatus, hstatus2, JVal.or, JVal.truthy,
      JVal.strictEq]

/-- C12 as amended, at the example of the specification: after the check-in
is committed, a further scan of the example payload ends with AlreadyCheckedIn. -/
theorem c12_second_scan_witness :
    modalsOf (handleBarCodeScanned
      ((handleCheckIn "2025-01-01T10:00:00.000Z" true
        (exampleStore "confirmed" [("qrData", .obj [("verificationCode", .str "AB12CD")])]) false
        (reservationOf ⟨"doc1", [("reservationId", .str "R-1001"), ("status", .str "confirmed"),
          ("qrData", .obj [("verificationCode", .str "AB12CD")])]⟩)).db.backend exampleParse)
      .initial examplePayload).events = [alreadyCheckedInModal] :=
  (c12_second_scan_after_check_in exampleParse
    (exampleStore "confirmed" [("qrData", .obj [("verificationCode", .str "AB12CD")])])
    .initial .initial examplePayload examplePayloadValue (.str "R-1001") "AB12CD"
    ⟨"doc1", [("reservationId", .str "R-1001"), ("status", .str "confirmed"),
      ("qrData", .obj [("verificationCode", .str "AB12CD")])]⟩ []
    "2025-01-01T10:00:00.000Z"
    rfl rfl rfl rfl rfl rfl rfl (by decide) rfl rfl rfl rfl rfl (by decide)).2.2.1

/-- C12 fails as stated.  At the example of the specification the verifier
succeeds; after the modal is dismissed (`hideModal`), a second scan of the same
payload on the collection the first scan left succeeds again instead of
ending with AlreadyCheckedIn. -/
theorem c12_second_scan_succeeds_again :
    modalsOf (handleBarCodeScanned
      (Store.backend exampleParse
        (exampleStore "confirmed" [("qrData", .obj [("verificationCode", .str "AB12CD")])]))
      .initial examplePayload).events = [successModal] ∧
    modalsOf (handleBarCodeScanned
      (Store.backend exampleParse
        (applyWrites
          (exampleStore "confirmed" [("qrData", .obj [("verificationCode", .str "AB12CD")])])
          (handleBarCodeScanned
            (Store.backend exampleParse
              (exampleStore "confirmed" [("qrData", .obj [("verificationCode", .str "AB12CD")])]))
            .initial examplePayload).events))
      (hideModal (handleBarCodeScanned
        (Store.backend exampleParse
          (exampleStore "confirmed" [("qrData", .obj [("verificationCode", .str "AB12CD")])]))
        .initial examplePayload).state)
      examplePayload).events = [successModal] :=
  ⟨rfl, rfl⟩

/-- C13, as the code has it.  For every well-formed payload, a lookup attempt
that throws is caught inside the retry loop and counts as an attempt: when all
three attempts throw, an accepted scan makes three attempts, without waiting,
and ends with the NotFound modal.  A failing lookup never leads to the generic
"Scanning failed" modal: whenever the loop ends without a reservation the scan
ends with NotFound, and the generic modal is shown only when a reservation was
found and its stored code cannot be rendered as text by the log line. -/
theorem c13_throwing_lookups_end_in_not_found (env : Backend) (st : ScannerState)
    (data : String) (parsed rid vc : JVal)
    (hproc : st.isProcessing = false) (hcam : st.cameraActive = true)
    (hparse : env.JSONparse data = some parsed) (hfields : payloadFields parsed = some (rid, vc))
    (hrid : rid.truthy = true) (hvc : vc.truthy = true) :
    ((∀ i, i < maxRetries → env.getDocs i rid = .rejected) →
      (handleBarCodeScanned env st data).events =
        [.getDocs rid, .getDocs rid, .getDocs rid, .showModal notFoundModal]) ∧
    ((retryLoop env.getDocs rid maxRetries 0).1 = none →
      modalsOf (handleBarCodeScanned env st data).events = [notFoundModal]) ∧
    (scanFailedModal ∈ modalsOf (handleBarCodeScanned env st data).events →
      ∃ r, (retryLoop env.getDocs rid maxRetries 0).1 = some r ∧
        (storedVerificationCode r).toStringThrows = true) := by
  rw [handleBarCodeScanned_events env st data hproc hcam]
  have hnone : (retryLoop env.getDocs rid maxRetries 0).1 = none →
      modalsOf (scanEvents env data) = [notFoundModal] := by
    intro hfound
    simp [scanEvents, hparse, hfields, hrid, hvc, hfound, modalsOf_append,
      retryLoop_modals, modalsOf]
  refine ⟨?_, hnone, ?_⟩
  · intro hthrow
    simp [scanEvents, hparse, hfields, hrid, hvc, retryLoop_all_rejected env.getDocs rid hthrow]
  · intro hshown
    cases hfound : (retryLoop env.getDocs rid maxRetries 0).1 with
    | none =>
      rw [hnone hfound] at hshown
      exact absurd hshown (by decide)
    | some r =>
      rw [scanEvents_found env data parsed rid vc r hparse hfields hrid hvc hfound,
        modalsOf_append, retryLoop_modals, List.nil_append] at hshown
      exact ⟨r, rfl, checkReservation_scanFailed r vc hshown⟩

/-- C13 as amended, at the example payload with every lookup throwing. -/
theorem c13_throwing_lookups_witness :
    (handleBarCodeScanned exampleOffline .initial examplePayload).events =
      [.getDocs (.str "R-1001"), .getDocs (.str "R-1001"), .getDocs (.str "R-1001"),
        .showModal notFoundModal] :=
  (c13_throwing_lookups_end_in_not_found exampleOffline .initial examplePayload
    examplePayloadValue (.str "R-1001") (.str "AB12CD") rfl rfl rfl rfl rfl rfl).1
    (fun _ _ => rfl)

/-- C13 fails as stated.  At the example payload, with every lookup attempt
throwing, the scan ends with the NotFound modal and not with the generic
"Scanning failed" modal. -/
theorem c13_lookup_failure_is_reported_as_not_found :
    modalsOf (handleBarCodeScanned exampleOffline .initial examplePayload).events =
      [notFoundModal] ∧
    modalsOf (handleBarCodeScanned exampleOffline .initial examplePayload).events ≠
      [scanFailedModal] :=
  ⟨rfl, by decide⟩

/-- C14. For every payload text (whatever it parses to, `null` included) and
every backend (lookups that throw included), an accepted scan returns, shows
exactly one result modal, leaves that modal open as `scanResult`, and leaves
the in-progress flag cleared. -/
theorem c14_one_outcome_and_flag_cleared (env : Backend) (st : ScannerState) (data : String)
    (hproc : st.isProcessing = false) (hcam : st.cameraActive = true) :
    ∃ m, modalsOf (handleBarCodeScanned env st data).events = [m] ∧
      (handleBarCodeScanned env st data).state.scanResult = m ∧
      (handleBarCodeScanned env st data).state.showResultModal = true ∧
      (handleBarCodeScanned env st data).state.isProcessing = false := by
  obtain ⟨m, hm⟩ := scanEvents_one_modal env data
  have hst := handleBarCodeScanned_state env st data m hproc hcam hm
  refine ⟨m, ?_, ?_, ?_, ?_⟩
  · rw [handleBarCodeScanned_events env st data hproc hcam, hm]
  · rw [hst]
  · rw [hst]
  · rw [hst]

/-- C14 at the payload text `null` with every lookup throwing. -/
theorem c14_one_outcome_witness :
    ∃ m, modalsOf (handleBarCodeScanned exampleOffline .initial "null").events = [m] ∧
      (handleBarCodeScanned exampleOffline .initial "null").state.scanResult = m ∧
      (handleBarCodeScanned exampleOffline .initial "null").state.showResultModal = true ∧
      (handleBarCodeScanned exampleOffline .initial "null").state.isProcessing = false :=
  c14_one_outcome_and_flag_cleared exampleOffline .initial "null" rfl rfl

/-- C15. When the check-in write of `handleCheckIn` fails (the backend is
unreachable or rejects the update), the handler reports the failure with the
error alert, shows no success alert, does not navigate back, leaves the
collection as it was and leaves `loading` false.  The screen holds no state
besides `loading`, so nothing local is turned to checked-in. -/
theorem c15_failed_write_is_reported (now : String) (reachable : Bool) (db : Store)
    (loading : Bool) (reservation : JVal) (key : String)
    (hcan : canCheckIn reservation = true)
    (hid : reservation.get "id" = .str key) (hkey : key ≠ "")
    (hfail : reachable = false ∨ db.updateDoc key (checkInFields now) = none) :
    (handleCheckIn now reachable db loading reservation).events =
      [.updateDoc (.str key) (checkInFields now),
        .alert "❌ Error" "Failed to update check-in."] ∧
    (handleCheckIn now reachable db loading reservation).loading = false ∧
    (handleCheckIn now reachable db loading reservation).db = db := by
  have hwrite : (if reachable = true then db.updateDoc key (checkInFields now) else none) =
      none := by
    rcases hfail with h | h
    · simp [h]
    · simp [h]
  simp [handleCheckIn, hcan, hid, JVal.truthy, hkey, hwrite]

/-- C15 at the snapshot of the example record, with the backend unreachable. -/
theorem c15_failed_write_witness :
    (handleCheckIn "2025-01-01T10:00:00.000Z" false
      (exampleStore "confirmed" [("qrVerificationCode", .str "AB12CD")]) true
      (reservationOf ⟨"doc1", [("reservationId", .str "R-1001"), ("status", .str "confirmed"),
        ("qrVerificationCode", .str "AB12CD")]⟩)).events =
      [.updateDoc (.str "doc1") (checkInFields "2025-01-01T10:00:00.000Z"),
        .alert "❌ Error" "Failed to update check-in."] ∧
    (handleCheckIn "2025-01-01T10:00:00.000Z" false
      (exampleStore "confirmed" [("qrVerificationCode", .str "AB12CD")]) true
      (reservationOf ⟨"doc1", [("reservationId", .str "R-1001"), ("status", .str "confirmed"),
        ("qrVerificationCode", .str "AB12CD")]⟩)).loading = false ∧
    (handleCheckIn "2025-01-01T10:00:00.000Z" false
      (exampleStore "confirmed" [("qrVerificationCode", .str "AB12CD")]) true
      (reservationOf ⟨"doc1", [("reservationId", .str "R-1001"), ("status", .str "confirmed"),
        ("qrVerificationCode", .str "AB12CD")]⟩)).db =
      exampleStore "confirmed" [("qrVerificationCode", .str "AB12CD")] :=
  c15_failed_write_is_reported "2025-01-01T10:00:00.000Z" false
    (exampleStore "confirmed" [("qrVerificationCode", .str "AB12CD")]) true
    (reservationOf ⟨"doc1", [("reservationId", .str "R-1001"), ("status", .str "confirmed"),
      ("qrVerificationCode", .str "AB12CD")]⟩) "doc1" rfl rfl (by decide) (Or.inl rfl)

/-- C16, as the code has it.  The verifier tests the status against three
values, not against `confirmed`.  For every found reservation an accepted scan
reports success exactly when the status is none of `cancelled`, `pending`,
`checked-in`, a stored code is resolved and the scanned code is strictly equal
to it; for the three statuses it never reports success, also when the code
matches. -/
theorem c16_success_iff_gate_and_code (env : Backend) (st : ScannerState) (data : String)
    (parsed rid vc r : JVal)
    (hproc : st.isProcessing = false) (hcam : st.cameraActive = true)
    (hparse : env.JSONparse data = some parsed) (hfields : payloadFields parsed = some (rid, vc))
    (hrid : rid.truthy = true) (hvc : vc.truthy = true)
    (hfound : (retryLoop env.getDocs rid maxRetries 0).1 = some r) :
    (modalsOf (handleBarCodeScanned env st data).events = [successModal] ↔
      passesStatusGate r = true ∧ (storedVerificationCode r).truthy = true ∧
        vc.strictEq (storedVerificationCode r) = true) ∧
    (r.get "status" = .str "cancelled" ∨ r.get "status" = .str "pending" ∨
        r.get "status" = .str "checked-in" →
      modalsOf (handleBarCodeScanned env st data).events ≠ [successModal]) := by
  obtain ⟨-, hm, -⟩ := handleBarCodeScanned_found env st data parsed rid vc r hproc hcam
    hparse hfields hrid hvc hfound
  rw [hm]
  have hiff : modalsOf (checkReservation r vc) = [successModal] ↔
      passesStatusGate r = true ∧ (storedVerificationCode r).truthy = true ∧
        vc.strictEq (storedVerificationCode r) = true := by
    cases hg : passesStatusGate r
    · have hno : modalsOf (checkReservation r vc) ≠ [successModal] := by
        simp only [passesStatusGate, Bool.and_eq_false_iff, Bool.not_eq_false'] at hg
        rcases hg with (h | h) | h
        · simp [checkReservation, h, modalsOf, cancelledModal, successModal]
        · by_cases h1 : (r.get "status").strictEq (.str "cancelled") = true
          · simp [checkReservation, h1, modalsOf, cancelledModal, successModal]
          · simp [checkReservation, h1, h, modalsOf, pendingModal, successModal]
        · by_cases h1 : (r.get "status").strictEq (.str "cancelled") = true
          · simp [checkReservation, h1, modalsOf, cancelledModal, successModal]
          · by_cases h2 : (r.get "status").strictEq (.str "pending") = true
            · simp [checkReservation, h1, h2, modalsOf, pendingModal, successModal]
            · simp [checkReservation, h1, h2, h, modalsOf, alreadyCheckedInModal, successModal]
      constructor
      · intro h; exact absurd h hno
      · rintro ⟨h, -⟩; cases h
    · rw [checkReservation_of_gate r vc hg]
      cases hts : (storedVerificationCode r).toStringThrows
      · cases ht : (storedVerificationCode r).truthy
        · simp [modalsOf, misconfiguredModal, successModal]
        · cases he : vc.strictEq (storedVerificationCode r)
          · simp [modalsOf, codeMismatchModal, successModal]
          · simp [modalsOf]
      · have hne : vc.strictEq (storedVerificationCode r) = false := by
          cases he : vc.strictEq (storedVerificationCode r)
          · rfl
          · have hc := toStringThrows_of_strictEq _ _ he
            rw [hts] at hc
            cases hc
        simp [modalsOf, scanFailedModal, successModal, hne]
  refine ⟨hiff, ?_⟩
  intro hstatus hsucc
  have hg := (hiff.1 hsucc).1
  simp only [passesStatusGate, Bool.and_eq_true, Bool.not_eq_true'] at hg
  obtain ⟨⟨h1, h2⟩, h3⟩ := hg
  rcases hstatus with h | h | h
  · simp [h, JVal.strictEq] at h1
  · simp [h, JVal.strictEq] at h2
  · simp [h, JVal.strictEq] at h3

/-- C16 as amended, at the example payload against a cancelled reservation
that stores the scanned code: the scan does not report success. -/
theorem c16_success_witness :
    modalsOf (handleBarCodeScanned
      (Store.backend exampleParse (exampleStore "cancelled" [("qrVerificationCode", .str "AB12CD")]))
      .initial examplePayload).events ≠ [successModal] :=
  (c16_success_iff_gate_and_code
    (Store.backend exampleParse (exampleStore "cancelled" [("qrVerificationCode", .str "AB12CD")]))
    .initial examplePayload examplePayloadValue (.str "R-1001") (.str "AB12CD")
    (reservationOf ⟨"doc1", [("reservationId", .str "R-1001"), ("status", .str "cancelled"),
      ("qrVerificationCode", .str "AB12CD")]⟩)
    rfl rfl rfl rfl rfl rfl rfl).2 (Or.inl rfl)

/-- C16 fails as stated.  A found reservation whose status is the unknown
string `no-show`, and one that has no status at all, both with the scanned
code stored, make the verifier report success. -/
theorem c16_unknown_or_missing_status_succeeds :
    modalsOf (handleBarCodeScanned
      (Store.backend exampleParse (exampleStore "no-show" [("qrVerificationCode", .str "AB12CD")]))
      .initial examplePayload).events = [successModal] ∧
    modalsOf (handleBarCodeScanned
      (Store.backend exampleParse
        [{ id := "doc1"
           data := [("reservationId", .str "R-1001"), ("qrVerificationCode", .str "AB12CD")] }])
      .initial examplePayload).events = [successModal] :=
  ⟨rfl, rfl⟩

/-- C17 fails on the code for status `cancelled`.  `canCheckIn` tests only
for `checked-in` and the `checkedIn` flag.  Run on a snapshot with status
`cancelled`, `handleCheckIn` issues the update and the stored record then
reads `checked-in`; and when the record was cancelled after the snapshot was
read (the screen still holds status `confirmed`), the cancelled record is
written to `checked-in` as well.  The verifier, on the same cancelled record,
ends with the Cancelled modal. -/
theorem c17_cancelled_reservation_is_checked_in :
    (handleCheckIn "2025-01-01T10:00:00.000Z" true (exampleStore "cancelled" []) false
      (reservationOf ⟨"doc1", [("reservationId", .str "R-1001"),
        ("status", .str "cancelled")]⟩)).events =
      [.updateDoc (.str "doc1") (checkInFields "2025-01-01T10:00:00.000Z"),
        .alert "✅ Success" "Guest checked in successfully!", .goBack] ∧
    (handleCheckIn "2025-01-01T10:00:00.000Z" true (exampleStore "cancelled" []) false
      (reservationOf ⟨"doc1", [("reservationId", .str "R-1001"),
        ("status", .str "cancelled")]⟩)).db.map (fun d => lookupLast "status" d.data) =
      [some (.str "checked-in")] ∧
    (handleCheckIn "2025-01-01T10:00:00.000Z" true (exampleStore "cancelled" []) false
      (reservationOf ⟨"doc1", [("reservationId", .str "R-1001"),
        ("status", .str "confirmed")]⟩)).db.map (fun d => lookupLast "status" d.data) =
      [some (.str "checked-in")] ∧
    modalsOf (handleBarCodeScanned
      (Store.backend exampleParse (exampleStore "cancelled" [("qrVerificationCode", .str "AB12CD")]))
      .initial examplePayload).events = [cancelledModal] :=
  ⟨rfl, rfl, rfl, rfl⟩

/-- C18. No operation of the check-in flow writes the verification code: the
verifier issues no write at all, and the update of `handleCheckIn` and the
update of `handleCancelReservation` leave, in every document of the
collection, the field `qrData` (with its nested `verificationCode`) and the
field `qrVerificationCode` as they were. -/
theorem c18_verification_code_is_never_written :
    (∀ (env : Backend) (st : ScannerState) (data : String),
      (handleBarCodeScanned env st data).events.filter Event.isUpdateDoc = []) ∧
    (∀ (now : String) (reachable : Bool) (db : Store) (loading : Bool) (r : JVal),
      (handleCheckIn now reachable db loading r).db.map codeFields = db.map codeFields) ∧
    (∀ (updatedAt : JVal) (reachable : Bool) (db : Store) (rd : JVal) (pressYes : Bool),
      (handleCancelReservation updatedAt reachable db rd pressYes).db.map codeFields =
        db.map codeFields) := by
  refine ⟨handleBarCodeScanned_no_updateDoc, ?_, ?_⟩
  · intro now reachable db loading r
    unfold handleCheckIn
    split
    · rfl
    · split
      · rfl
      · split
        · split
          · rename_i db' hw
            exact updateDoc_codeFields db db' _ (checkInFields now) rfl rfl
              (accepted_write _ _ _ _ _ hw)
          · rfl
        · rfl
  · intro updatedAt reachable db rd pressYes
    unfold handleCancelReservation
    split
    · rfl
    · split
      · split
        · rfl
        · split
          · rename_i db' hw
            exact updateDoc_codeFields db db' _ (cancelFields updatedAt) rfl rfl
              (accepted_write _ _ _ _ _ hw)
          · rfl
      · rfl

/-- C19, as the code has it.  The predicate "`checkedIn` is true if and only
if `status` is `checked-in`" on the stored reservations is preserved by the
check-in update of `handleCheckIn`, on every collection; and it is preserved
by the cancel update of `handleCancelReservation` whenever the stored record
the update goes to does not have status `checked-in`. -/
theorem c19_mirror_preserved :
    (∀ (now : String) (reachable : Bool) (db : Store) (loading : Bool) (r : JVal),
      (∀ d ∈ db, checkedInMirrorsStatus d.data = true) →
      ∀ d ∈ (handleCheckIn now reachable db loading r).db,
        checkedInMirrorsStatus d.data = true) ∧
    (∀ (updatedAt : JVal) (reachable : Bool) (db : Store) (rd : JVal) (pressYes : Bool),
      (∀ d ∈ db, checkedInMirrorsStatus d.data = true) →
      (∀ d ∈ db, rd.get "id" = .str d.id →
        (JVal.obj d.data).get "status" ≠ .str "checked-in") →
      ∀ d ∈ (handleCancelReservation updatedAt reachable db rd pressYes).db,
        checkedInMirrorsStatus d.data = true) := by
  constructor
  · intro now reachable db loading r hall
    rcases handleCheckIn_db now reachable db loading r with h | ⟨key, db', -, hupd, h⟩
    · rw [h]; exact hall
    · rw [h]
      exact updateDoc_forall db db' key (checkInFields now)
        (fun e => checkedInMirrorsStatus e = true) hupd
        (fun d _ _ => mirror_after_checkIn d.data now) (fun d hd _ => hall d hd)
  · intro updatedAt reachable db rd pressYes hall hnot
    rcases handleCancelReservation_db updatedAt reachable db rd pressYes with
      h | ⟨key, db', hid, hupd, h⟩
    · rw [h]; exact hall
    · rw [h]
      exact updateDoc_forall db db' key (cancelFields updatedAt)
        (fun e => checkedInMirrorsStatus e = true) hupd
        (fun d hd hk => mirror_after_cancel d.data updatedAt (hall d hd)
          (hnot d hd (by rw [hid, hk])))
        (fun d hd _ => hall d hd)

/-- C19 as amended, at the example record with status `confirmed`: after the
check-in update, and after the cancel update, the flag mirrors the status. -/
theorem c19_mirror_witness :
    (∀ d ∈ (handleCheckIn "2025-01-01T10:00:00.000Z" true (exampleStore "confirmed" []) false
        (reservationOf ⟨"doc1", [("reservationId", .str "R-1001"),
          ("status", .str "confirmed")]⟩)).db,
      checkedInMirrorsStatus d.data = true) ∧
    (∀ d ∈ (handleCancelReservation (.str "2025-01-01T10:00:00.000Z") true
        (exampleStore "confirmed" [])
        (reservationOf ⟨"doc1", [("reservationId", .str "R-1001"),
          ("status", .str "confirmed")]⟩) true).db,
      checkedInMirrorsStatus d.data = true) :=
  ⟨c19_mirror_preserved.1 "2025-01-01T10:00:00.000Z" true (exampleStore "confirmed" []) false
      (reservationOf ⟨"doc1", [("reservationId", .str "R-1001"), ("status", .str "confirmed")]⟩)
      (by intro d hd; simp [exampleStore] at hd; subst hd; rfl),
   c19_mirror_preserved.2 (.str "2025-01-01T10:00:00.000Z") true (exampleStore "confirmed" [])
      (reservationOf ⟨"doc1", [("reservationId", .str "R-1001"), ("status", .str "confirmed")]⟩)
      true
      (by intro d hd; simp [exampleStore] at hd; subst hd; rfl)
      (by
        intro d hd _
        simp [exampleStore] at hd
        subst hd
        simp [JVal.get, lookupLast])⟩

/-- C19 fails as stated.  The stored record is checked in (`status` is
`checked-in`, `checkedIn` is true: the predicate holds) while the management
screen still shows the snapshot it read before, with status `confirmed`, so
the Cancel button is rendered.  After the cancel update the record has status
`cancelled` and `checkedIn` still true: the predicate no longer holds. -/
theorem c19_cancel_breaks_mirror :
    cancelButtonShown (reservationOf ⟨"doc1", [("reservationId", .str "R-1001"),
      ("status", .str "confirmed")]⟩) = true ∧
    (exampleStore "checked-in" [("checkedIn", .bool true)]).map
      (fun d => checkedInMirrorsStatus d.data) = [true] ∧
    (handleCancelReservation (.str "2025-01-01T10:00:00.000Z") true
      (exampleStore "checked-in" [("checkedIn", .bool true)])
      (reservationOf ⟨"doc1", [("reservationId", .str "R-1001"), ("status", .str "confirmed")]⟩)
      true).db.map
      (fun d => (lookupLast "status" d.data, lookupLast "checkedIn" d.data,
        checkedInMirrorsStatus d.data)) =
      [(some (.str "cancelled"), some (.bool true), false)] :=
  ⟨rfl, rfl, rfl⟩

/-- C20, as the code has it.  `handleCheckIn` sets `checkInTime` in the same
write that sets `status` to `checked-in` and `checkedIn` to true: whenever
check-in is allowed for the snapshot passed to the screen, the snapshot id is
the key of a stored record and the backend accepts the write, the handler
issues exactly one update, after which every record under that key holds the
three fields, `checkInTime` being the time of the call, and no record is added
or removed.  For every reservation whose snapshot is already checked in
(status `checked-in`, or a true `checkedIn` flag) it issues no write and the
collection is as it was.  The test is made on the snapshot, not on the stored
record. -/
theorem c20_check_in_time_written_with_status :
    (∀ (now : String) (db : Store) (loading : Bool) (r : JVal) (key : String),
      canCheckIn r = true → r.get "id" = .str key → key ≠ "" → (∃ d ∈ db, d.id = key) →
      (handleCheckIn now true db loading r).events =
        [.updateDoc (.str key) (checkInFields now),
          .alert "✅ Success" "Guest checked in successfully!", .goBack] ∧
      (∀ d ∈ (handleCheckIn now true db loading r).db, d.id = key →
        lookupLast "status" d.data = some (.str "checked-in") ∧
        lookupLast "checkedIn" d.data = some (.bool true) ∧
        lookupLast "checkInTime" d.data = some (.str now)) ∧
      (handleCheckIn now true db loading r).db.map (fun d => d.id) = db.map (fun d => d.id)) ∧
    (∀ (now : String) (reachable : Bool) (db : Store) (loading : Bool) (r : JVal),
      r.get "status" = .str "checked-in" ∨ (r.get "checkedIn").truthy = true →
      (handleCheckIn now reachable db loading r).events = [] ∧
      (handleCheckIn now reachable db loading r).db = db) := by
  constructor
  · intro now db loading r key hcan hid hkey hex
    obtain ⟨d0, hd0, hd0k⟩ := hex
    have hany : db.any (fun x => x.id == key) = true :=
      List.any_eq_true.2 ⟨d0, hd0, by simp [hd0k]⟩
    have hupd : db.updateDoc key (checkInFields now) =
        some (db.map fun x =>
          if x.id == key then { x with data := x.data ++ checkInFields now } else x) := by
      simp [Store.updateDoc, hany]
    have hrun : handleCheckIn now true db loading r =
        { loading := false
          events := [.updateDoc (.str key) (checkInFields now),
            .alert "✅ Success" "Guest checked in successfully!", .goBack]
          db := db.map fun x =>
            if x.id == key then { x with data := x.data ++ checkInFields now } else x } := by
      simp [handleCheckIn, hcan, hid, JVal.truthy, hkey, hupd]
    rw [hrun]
    refine ⟨rfl, ?_, ?_⟩
    · intro d hd hdk
      obtain ⟨x, -, rfl⟩ := List.mem_map.1 hd
      by_cases hx : x.id = key
      · simp only [hx, beq_self_eq_true, if_true]
        refine ⟨?_, ?_, ?_⟩ <;> (rw [lookupLast_append]; rfl)
      · simp only [beq_iff_eq, hx, if_false] at hdk
    · simp only [List.map_map]
      apply List.map_congr_left
      intro x _
      by_cases hx : x.id = key <;> simp [hx]
  · intro now reachable db loading r hdone
    have hcan : canCheckIn r = false := by
      rcases hdone with h | h
      · simp [canCheckIn, detailsStatus, h, JVal.or, JVal.truthy, JVal.strictEq]
      · simp [canCheckIn, detailsCheckedIn, JVal.or, h]
    simp [handleCheckIn, hcan]

/-- C20 as amended, at the example record: the check-in of the confirmed record
writes the three fields, and a snapshot with a true `checkedIn` flag is not
written. -/
theorem c20_check_in_time_witness :
    (∀ d ∈ (handleCheckIn "2025-01-01T10:00:00.000Z" true (exampleStore "confirmed" []) false
        (reservationOf ⟨"doc1", [("reservationId", .str "R-1001"),
          ("status", .str "confirmed")]⟩)).db,
      d.id = "doc1" →
        lookupLast "status" d.data = some (.str "checked-in") ∧
        lookupLast "checkedIn" d.data = some (.bool true) ∧
        lookupLast "checkInTime" d.data = some (.str "2025-01-01T10:00:00.000Z")) ∧
    (handleCheckIn "2025-01-02T09:00:00.000Z" true
      (exampleStore "confirmed"
        [("checkedIn", .bool true), ("checkInTime", .str "2025-01-01T10:00:00.000Z")]) false
      (reservationOf ⟨"doc1", [("reservationId", .str "R-1001"), ("status", .str "confirmed"),
        ("checkedIn", .bool true), ("checkInTime", .str "2025-01-01T10:00:00.000Z")]⟩)).events =
      [] :=
  ⟨(c20_check_in_time_written_with_status.1 "2025-01-01T10:00:00.000Z"
      (exampleStore "confirmed" []) false
      (reservationOf ⟨"doc1", [("reservationId", .str "R-1001"), ("status", .str "confirmed")]⟩)
      "doc1" rfl rfl (by decide)
      ⟨⟨"doc1", [("reservationId", .str "R-1001"), ("status", .str "confirmed")]⟩,
        by simp [exampleStore], rfl⟩).2.1,
   (c20_check_in_time_written_with_status.2 "2025-01-02T09:00:00.000Z" true
      (exampleStore "confirmed"
        [("checkedIn", .bool true), ("checkInTime", .str "2025-01-01T10:00:00.000Z")]) false
      (reservationOf ⟨"doc1", [("reservationId", .str "R-1001"), ("status", .str "confirmed"),
        ("checkedIn", .bool true), ("checkInTime", .str "2025-01-01T10:00:00.000Z")]⟩)
      (Or.inr rfl)).1⟩

/-- C20 fails as stated.  The stored record is already checked in, with
`checkInTime` set on January 1st, while the details screen still holds the
snapshot it was opened with, read before that check-in (status `confirmed`,
no flag).  `handleCheckIn` issues the update again and the stored
`checkInTime` is replaced by the time of the second call. -/
theorem c20_stale_snapshot_overwrites_check_in_time :
    (exampleStore "checked-in"
      [("checkedIn", .bool true), ("checkInTime", .str "2025-01-01T10:00:00.000Z")]).map
      (fun d => lookupLast "checkInTime" d.data) = [some (.str "2025-01-01T10:00:00.000Z")] ∧
    (handleCheckIn "2025-01-02T09:00:00.000Z" true
      (exampleStore "checked-in"
        [("checkedIn", .bool true), ("checkInTime", .str "2025-01-01T10:00:00.000Z")]) false
      (reservationOf ⟨"doc1", [("reservationId", .str "R-1001"),
        ("status", .str "confirmed")]⟩)).events =
      [.updateDoc (.str "doc1") (checkInFields "2025-01-02T09:00:00.000Z"),
        .alert "✅ Success" "Guest checked in successfully!", .goBack] ∧
    (handleCheckIn "2025-01-02T09:00:00.000Z" true
      (exampleStore "checked-in"
        [("checkedIn", .bool true), ("checkInTime", .str "2025-01-01T10:00:00.000Z")]) false
      (reservationOf ⟨"doc1", [("reservationId", .str "R-1001"),
        ("status", .str "confirmed")]⟩)).db.map
      (fun d => lookupLast "checkInTime" d.data) = [some (.str "2025-01-02T09:00:00.000Z")] :=
  ⟨rfl, rfl, rfl⟩

/-! ## Snapshot, retry loop and the other screens: claims C21 to C30 -/

/-- C21 fails for a record that stores a field named `id`.  The one navigation
of the successful scan carries the snapshot `{ id: docSnap.id,
...docSnap.data() }` of the record stored under `doc1`; the stored field
`id: "R-1001"` is written after the key and replaces it, so the id read from
the snapshot handed to the details screen is `R-1001`, not the storage key.
The stored fields, the status `confirmed` among them, are carried as read. -/
theorem c21_snapshot_loses_the_storage_key :
    (handleBarCodeScanned
      (Store.backend exampleParse
        [{ id := "doc1"
           data := [("id", .str "R-1001"), ("reservationId", .str "R-1001"),
             ("status", .str "confirmed"), ("qrVerificationCode", .str "AB12CD")] }])
      .initial examplePayload).events.filter Event.isNavigateReplace =
      [.navigateReplace 1500 "ReservationDetails"
        (.obj [("id", .str "doc1"), ("id", .str "R-1001"), ("reservationId", .str "R-1001"),
          ("status", .str "confirmed"), ("qrVerificationCode", .str "AB12CD")])] ∧
    (JVal.obj [("id", .str "doc1"), ("id", .str "R-1001"), ("reservationId", .str "R-1001"),
      ("status", .str "confirmed"), ("qrVerificationCode", .str "AB12CD")]).get "id" =
      .str "R-1001" ∧
    (JVal.obj [("id", .str "doc1"), ("id", .str "R-1001"), ("reservationId", .str "R-1001"),
      ("status", .str "confirmed"), ("qrVerificationCode", .str "AB12CD")]).get "status" =
      .str "confirmed" :=
  ⟨rfl, rfl, rfl⟩

/-- C22, as the code has it.  The verifier needs at least one stored code, not
exactly one.  For every found reservation: when neither location holds a
value the scan does not succeed; when both do, the nested code is the one
compared and, the status checks passed, the scan succeeds exactly when the
scanned code is strictly equal to the nested code, whatever the flat one is;
and a scan that succeeds found a value in at least one location. -/
theorem c22_success_needs_some_stored_code (env : Backend) (st : ScannerState) (data : String)
    (parsed rid vc r : JVal)
    (hproc : st.isProcessing = false) (hcam : st.cameraActive = true)
    (hparse : env.JSONparse data = some parsed) (hfields : payloadFields parsed = some (rid, vc))
    (hrid : rid.truthy = true) (hvc : vc.truthy = true)
    (hfound : (retryLoop env.getDocs rid maxRetries 0).1 = some r) :
    (((r.get "qrData").optGet "verificationCode").truthy = false →
      (r.get "qrVerificationCode").truthy = false →
      modalsOf (handleBarCodeScanned env st data).events ≠ [successModal]) ∧
    (((r.get "qrData").optGet "verificationCode").truthy = true →
      (r.get "qrVerificationCode").truthy = true → passesStatusGate r = true →
      (modalsOf (handleBarCodeScanned env st data).events = [successModal] ↔
        vc.strictEq ((r.get "qrData").optGet "verificationCode") = true)) ∧
    (modalsOf (handleBarCodeScanned env st data).events = [successModal] →
      ((r.get "qrData").optGet "verificationCode").truthy = true ∨
        (r.get "qrVerificationCode").truthy = true) := by
  obtain ⟨-, hm, -⟩ := handleBarCodeScanned_found env st data parsed rid vc r hproc hcam
    hparse hfields hrid hvc hfound
  rw [hm]
  have hnone : ((r.get "qrData").optGet "verificationCode").truthy = false →
      (r.get "qrVerificationCode").truthy = false →
      modalsOf (checkReservation r vc) ≠ [successModal] := by
    intro hn hf hsucc
    have hs : (storedVerificationCode r).truthy = false := by
      simp [storedVerificationCode, JVal.or, hn, hf]
    have hchk := checkReservation_success r vc hsucc
    unfold checkReservation at hchk
    repeat' split at hchk
    all_goals simp_all
  refine ⟨hnone, ?_, ?_⟩
  · intro hn _ hgate
    have hs : storedVerificationCode r = (r.get "qrData").optGet "verificationCode" := by
      simp [storedVerificationCode, JVal.or, hn]
    rw [checkReservation_of_gate r vc hgate, hs]
    cases hc : vc.strictEq ((r.get "qrData").optGet "verificationCode")
    · cases hts : ((r.get "qrData").optGet "verificationCode").toStringThrows <;>
        simp [hn, modalsOf, codeMismatchModal, successModal, scanFailedModal]
    · simp [hn, toStringThrows_of_strictEq _ _ hc, modalsOf]
  · intro hsucc
    cases hn : ((r.get "qrData").optGet "verificationCode").truthy
    · cases hf : (r.get "qrVerificationCode").truthy
      · exact absurd hsucc (hnone hn hf)
      · exact Or.inr rfl
    · exact Or.inl rfl

/-- C22 as amended, at the example payload against a confirmed reservation
that stores no code: the scan does not succeed. -/
theorem c22_no_code_witness :
    modalsOf (handleBarCodeScanned (Store.backend exampleParse (exampleStore "confirmed" []))
      .initial examplePayload).events ≠ [successModal] :=
  (c22_success_needs_some_stored_code (Store.backend exampleParse (exampleStore "confirmed" []))
    .initial examplePayload examplePayloadValue (.str "R-1001") (.str "AB12CD")
    (reservationOf ⟨"doc1", [("reservationId", .str "R-1001"), ("status", .str "confirmed")]⟩)
    rfl rfl rfl rfl rfl rfl rfl).1 rfl rfl

/-- C22 fails as stated.  A confirmed reservation in which both locations hold
a non-empty code, equal (`AB12CD` twice) or different (`AB12CD` nested, `ZZ99`
flat), makes the verifier succeed on the scanned code `AB12CD`. -/
theorem c22_both_codes_present_succeeds :
    modalsOf (handleBarCodeScanned
      (Store.backend exampleParse (exampleStore "confirmed"
        [("qrData", .obj [("verificationCode", .str "AB12CD")]),
          ("qrVerificationCode", .str "AB12CD")]))
      .initial examplePayload).events = [successModal] ∧
    modalsOf (handleBarCodeScanned
      (Store.backend exampleParse (exampleStore "confirmed"
        [("qrData", .obj [("verificationCode", .str "AB12CD")]),
          ("qrVerificationCode", .str "ZZ99")]))
      .initial examplePayload).events = [successModal] :=
  ⟨rfl, rfl⟩

/-- C27. The retry loop is bounded whatever the backend does.  For every
payload, backend and scanner state a scan makes at most three lookup attempts
and waits at most twice (1000 ms each); the loop needs no more than
`maxRetries` iterations (more fuel changes nothing); and an attempt that
throws is counted: when every attempt throws, a scan of a well-formed payload
(both fields read from the payload and truthy) makes exactly three attempts
and then stops. -/
theorem c27_retry_loop_is_bounded (env : Backend) (st : ScannerState) (data : String) :
    ((handleBarCodeScanned env st data).events.filter Event.isGetDocs).length ≤ 3 ∧
    ((handleBarCodeScanned env st data).events.filter Event.isSleep).length ≤ 2 ∧
    (∀ e ∈ (handleBarCodeScanned env st data).events, e.isSleep = true → e = .sleep 1000) ∧
    (∀ (rid : JVal) (fuel : Nat), maxRetries ≤ fuel →
      retryLoop env.getDocs rid fuel 0 = retryLoop env.getDocs rid maxRetries 0) ∧
    (∀ parsed rid vc : JVal, st.isProcessing = false → st.cameraActive = true →
      env.JSONparse data = some parsed → payloadFields parsed = some (rid, vc) →
      rid.truthy = true → vc.truthy = true →
      (∀ i, i < maxRetries → env.getDocs i rid = .rejected) →
      ((handleBarCodeScanned env st data).events.filter Event.isGetDocs).length = 3 ∧
      (handleBarCodeScanned env st data).events.filter Event.isSleep = []) := by
  have hev : (handleBarCodeScanned env st data).events = [] ∨
      (handleBarCodeScanned env st data).events = scanEvents env data := by
    unfold handleBarCodeScanned
    split
    · exact Or.inl rfl
    · exact Or.inr rfl
  have hsleep : ∀ e ∈ scanEvents env data, e.isSleep = true → e = .sleep 1000 := by
    have hloop : ∀ (rid : JVal) (fuel rc : Nat), ∀ e ∈ (retryLoop env.getDocs rid fuel rc).2,
        e.isSleep = true → e = .sleep 1000 := by
      intro rid fuel
      induction fuel with
      | zero => intro rc e he; simp [retryLoop] at he
      | succ n ih =>
        intro rc e he hs
        unfold retryLoop at he
        split at he
        · split at he
          · simp only [List.mem_singleton] at he
            subst he
            simp [Event.isSleep] at hs
          · split at he
            · simp only [List.mem_cons] at he
              rcases he with he | he | he
              · subst he; simp [Event.isSleep] at hs
              · exact he
              · exact ih (rc + 1) e he hs
            · simp only [List.mem_cons] at he
              rcases he with he | he
              · subst he; simp [Event.isSleep] at hs
              · exact ih (rc + 1) e he hs
          · simp only [List.mem_cons] at he
            rcases he with he | he
            · subst he; simp [Event.isSleep] at hs
            · exact ih (rc + 1) e he hs
        · simp at he
    intro e he hs
    unfold scanEvents at he
    split at he
    · simp only [List.mem_singleton] at he; subst he; simp [Event.isSleep] at hs
    · split at he
      · simp only [List.mem_singleton] at he; subst he; simp [Event.isSleep] at hs
      · split at he
        · simp only [List.mem_singleton] at he; subst he; simp [Event.isSleep] at hs
        · simp only [] at he
          split at he
          · rcases List.mem_append.1 he with h | h
            · exact hloop _ _ _ e h hs
            · simp only [List.mem_singleton] at h; subst h; simp [Event.isSleep] at hs
          · rename_i r _
            rcases List.mem_append.1 he with h | h
            · exact hloop _ _ _ e h hs
            · have hmem := (List.mem_filter (p := Event.isSleep)).2 ⟨h, hs⟩
              rw [(checkReservation_no_lookup _ _).2] at hmem
              simp at hmem
  refine ⟨?_, ?_, ?_, ?_, ?_⟩
  · rcases hev with h | h
    · rw [h]; simp
    · rw [h]; exact (scanEvents_lookups_le env data).1
  · rcases hev with h | h
    · rw [h]; simp
    · rw [h]; exact (scanEvents_lookups_le env data).2
  · rcases hev with h | h
    · rw [h]; simp
    · rw [h]; exact hsleep
  · intro rid fuel hfuel
    exact retryLoop_fuel env.getDocs rid fuel 0 (by omega)
  · intro parsed rid vc hproc hcam hparse hfields hrid hvc hthrow
    rw [handleBarCodeScanned_events env st data hproc hcam]
    simp [scanEvents, hparse, hfields, hrid, hvc, retryLoop_all_rejected env.getDocs rid hthrow,
      Event.isGetDocs, Event.isSleep]

/-- C27 at the example payload with every lookup attempt throwing. -/
theorem c27_retry_loop_witness :
    ((handleBarCodeScanned exampleOffline .initial examplePayload).events.filter
      Event.isGetDocs).length = 3 ∧
    (handleBarCodeScanned exampleOffline .initial examplePayload).events.filter
      Event.isSleep = [] :=
  (c27_retry_loop_is_bounded exampleOffline .initial examplePayload).2.2.2.2
    examplePayloadValue (.str "R-1001") (.str "AB12CD") rfl rfl rfl rfl rfl rfl (fun _ _ => rfl)

/-- C28. If the first `k - 1` lookup attempts (`k` = 1, 2 or 3) throw or
return no document and attempt `k` returns at least one document, an accepted
scan of a well-formed payload (both fields read from the payload and truthy)
makes exactly `k` lookup attempts, does not end with the NotFound modal, and
goes on to the status checks with the snapshot of the first document of that
result. -/
theorem c28_found_on_attempt_k (env : Backend) (st : ScannerState) (data : String)
    (parsed rid vc : JVal) (k : Nat) (d : DocSnap) (rest : List DocSnap)
    (hproc : st.isProcessing = false) (hcam : st.cameraActive = true)
    (hparse : env.JSONparse data = some parsed) (hfields : payloadFields parsed = some (rid, vc))
    (hrid : rid.truthy = true) (hvc : vc.truthy = true)
    (hk1 : 1 ≤ k) (hk3 : k ≤ 3)
    (hmiss : ∀ i, i + 1 < k → env.getDocs i rid = .rejected ∨ env.getDocs i rid = .snapshot [])
    (hhit : env.getDocs (k - 1) rid = .snapshot (d :: rest)) :
    ((handleBarCodeScanned env st data).events.filter Event.isGetDocs).length = k ∧
    notFoundModal ∉ modalsOf (handleBarCodeScanned env st data).events ∧
    (handleBarCodeScanned env st data).events =
      (retryLoop env.getDocs rid maxRetries 0).2 ++ checkReservation (reservationOf d) vc := by
  obtain ⟨hres, hcount⟩ := retryLoop_first_hit env.getDocs rid (k - 1) d rest
    (by simp only [maxRetries]; omega) (fun i hi => hmiss i (by omega)) hhit
  obtain ⟨he, hm, -⟩ := handleBarCodeScanned_found env st data parsed rid vc (reservationOf d)
    hproc hcam hparse hfields hrid hvc hres
  refine ⟨?_, ?_, he⟩
  · rw [he, List.filter_append, (checkReservation_no_lookup _ _).1, List.append_nil, hcount]
    omega
  · rw [hm]
    rcases checkReservation_modal (reservationOf d) vc with h | h | h | h | h | h | h <;>
      rw [h] <;> decide

/-- C28 with `k = 3`: the first attempt throws, the second finds nothing, the
third returns the example record. -/
theorem c28_found_on_third_attempt_witness :
    ((handleBarCodeScanned exampleLate .initial examplePayload).events.filter
      Event.isGetDocs).length = 3 ∧
    notFoundModal ∉ modalsOf (handleBarCodeScanned exampleLate .initial examplePayload).events :=
  have h := c28_found_on_attempt_k exampleLate .initial examplePayload examplePayloadValue
    (.str "R-1001") (.str "AB12CD") 3
    ⟨"doc1", [("reservationId", .str "R-1001"), ("status", .str "confirmed"),
      ("qrVerificationCode", .str "AB12CD")]⟩ []
    rfl rfl rfl rfl rfl rfl (by decide) (by decide)
    (fun i hi => by
      have hi2 : i = 0 ∨ i = 1 := by omega
      rcases hi2 with h0 | h1
      · subst h0; exact Or.inl rfl
      · subst h1; exact Or.inr rfl)
    rfl
  ⟨h.1, h.2.1⟩

/-- C24. The scanner accepts at most one verification at a time.  A scan event
that reaches the handler while `isProcessing` is true or `cameraActive` is
false is ignored: no event is produced (no lookup, no modal), whatever the
parser and the backend are, and the state is unchanged.  While a scan is being
processed and after it has ended the scanner is in such a state, so every
further detected code is ignored, until the result modal is dismissed:
`hideModal` runs `resetScanner`, after which a scan is accepted again. -/
theorem c24_one_scan_at_a_time (env : Backend) (st : ScannerState) (data : String) :
    (st.isProcessing = true ∨ st.cameraActive = false →
      handleBarCodeScanned env st data = { state := st, events := [] }) ∧
    (st.isProcessing = false → st.cameraActive = true →
      (∀ (env2 : Backend) (data2 : String),
        handleBarCodeScanned env2
          { st with isProcessing := true, scanned := true, cameraActive := false } data2 =
          { state := { st with isProcessing := true, scanned := true, cameraActive := false }
            events := [] }) ∧
      (∀ (env2 : Backend) (texts : List String),
        scannerRun env2 (handleBarCodeScanned env st data).state
          (texts.map ScannerInput.barCodeScanned) =
          { state := (handleBarCodeScanned env st data).state, events := [] }) ∧
      (∀ (env2 : Backend) (data2 : String),
        handleBarCodeScanned env2 (handleBarCodeScanned env st data).state data2 =
          { state := (handleBarCodeScanned env st data).state, events := [] }) ∧
      (∀ (env2 : Backend) (data2 : String),
        (scannerStep env2 (hideModal (handleBarCodeScanned env st data).state)
          (.barCodeScanned data2)).events = scanEvents env2 data2)) := by
  constructor
  · intro h
    rcases h with h | h <;> simp [handleBarCodeScanned, h]
  · intro hproc hcam
    obtain ⟨m, hm⟩ := scanEvents_one_modal env data
    have hst := handleBarCodeScanned_state env st data m hproc hcam hm
    refine ⟨?_, ?_, ?_, ?_⟩
    · intro env2 data2
      simp [handleBarCodeScanned]
    · intro env2 texts
      rw [hst]
      induction texts with
      | nil => rfl
      | cons t rest ih =>
        simp only [List.map_cons, scannerRun, scannerStep, onBarcodeScanned]
        simp [ih]
    · intro env2 data2
      rw [hst]
      simp [handleBarCodeScanned]
    · intro env2 data2
      rw [hst]
      simp [scannerStep, onBarcodeScanned, hideModal, resetScanner, handleBarCodeScanned]

/-- C24 at the example: while the result modal of a first scan is open a second
scan of the example payload is ignored, and after the modal is dismissed it
is accepted. -/
theorem c24_one_scan_witness :
    handleBarCodeScanned exampleOffline
      (handleBarCodeScanned
        (Store.backend exampleParse (exampleStore "confirmed" [])) .initial examplePayload).state
      examplePayload =
      { state := (handleBarCodeScanned
          (Store.backend exampleParse (exampleStore "confirmed" [])) .initial examplePayload).state
        events := [] } ∧
    (scannerStep exampleOffline
      (hideModal (handleBarCodeScanned
        (Store.backend exampleParse (exampleStore "confirmed" [])) .initial examplePayload).state)
      (.barCodeScanned examplePayload)).events = scanEvents exampleOffline examplePayload :=
  have h := (c24_one_scan_at_a_time (Store.backend exampleParse (exampleStore "confirmed" []))
    .initial examplePayload).2 rfl rfl
  ⟨h.2.2.1 exampleOffline examplePayload, h.2.2.2 exampleOffline examplePayload⟩

/-- C23. In the user directory `canDeleteUser` returns true exactly when the
type of the account is `user`; and for every selected account whose type is
not `user`, whatever the operator and the backend do, `handleDeleteAccount`
sends no delete and leaves the whole state of the screen, the `users`, `staff`
and `admins` lists included, as it was. -/
theorem c23_only_customer_accounts_are_deleted :
    (∀ user : JVal, canDeleteUser user = true ↔ user.get "type" = .str "user") ∧
    (∀ (deleteAccepted pressDelete : Bool) (st : GuestsState),
      st.selectedUser.get "type" ≠ .str "user" →
      (handleDeleteAccount deleteAccepted pressDelete st).events.filter
        GuestEvent.isDeleteDoc = [] ∧
      (handleDeleteAccount deleteAccepted pressDelete st).state = st) := by
  constructor
  · intro user
    unfold canDeleteUser
    rw [← strictEq_str_iff]
    cases (user.get "type").strictEq (.str "user") <;> simp
  · intro deleteAccepted pressDelete st htype
    have hcan : canDeleteUser st.selectedUser = false := by
      simp [canDeleteUser, strictEq_str_eq_false _ _ htype]
    unfold handleDeleteAccount
    split
    · exact ⟨rfl, rfl⟩
    · simp [hcan, GuestEvent.isDeleteDoc]

/-- C23 at a selected staff account, with the operator ready to confirm and
the backend ready to accept. -/
theorem c23_staff_account_witness :
    (handleDeleteAccount true true
      { users := [.obj [("id", .str "u1"), ("type", .str "user")]]
        admins := []
        staff := [.obj [("id", .str "s1"), ("type", .str "staff")]]
        selectedUser := .obj [("id", .str "s1"), ("type", .str "staff")]
        showDetailsModal := true
        deleting := false }).events.filter GuestEvent.isDeleteDoc = [] :=
  (c23_only_customer_accounts_are_deleted.2 true true
    { users := [.obj [("id", .str "u1"), ("type", .str "user")]]
      admins := []
      staff := [.obj [("id", .str "s1"), ("type", .str "staff")]]
      selectedUser := .obj [("id", .str "s1"), ("type", .str "staff")]
      showDetailsModal := true
      deleting := false }
    (by simp [JVal.get, lookupLast])).1

/-- C25 fails for a record that stores a field named `id`.  The record is
stored under the key `doc1` and holds `id: "R-1001"`: the spread of the stored
fields comes after `id: docSnap.id`, so the snapshot the verifier hands over
carries `R-1001` as its id.  `handleCheckIn` then sends its update to the
document `R-1001`, which does not exist: the update fails and the record the
lookup returned is left unchanged. -/
theorem c25_stored_id_field_replaces_the_key :
    modalsOf (handleBarCodeScanned
      (Store.backend exampleParse
        [{ id := "doc1"
           data := [("id", .str "R-1001"), ("reservationId", .str "R-1001"),
             ("status", .str "confirmed"), ("qrVerificationCode", .str "AB12CD")] }])
      .initial examplePayload).events = [successModal] ∧
    (reservationOf
      { id := "doc1"
        data := [("id", .str "R-1001"), ("reservationId", .str "R-1001"),
          ("status", .str "confirmed"), ("qrVerificationCode", .str "AB12CD")] }).get "id" =
      .str "R-1001" ∧
    (handleCheckIn "2025-01-01T10:00:00.000Z" true
      [{ id := "doc1"
         data := [("id", .str "R-1001"), ("reservationId", .str "R-1001"),
           ("status", .str "confirmed"), ("qrVerificationCode", .str "AB12CD")] }]
      false
      (reservationOf
        { id := "doc1"
          data := [("id", .str "R-1001"), ("reservationId", .str "R-1001"),
            ("status", .str "confirmed"), ("qrVerificationCode", .str "AB12CD")] })).events =
      [.updateDoc (.str "R-1001") (checkInFields "2025-01-01T10:00:00.000Z"),
        .alert "❌ Error" "Failed to update check-in."] ∧
    (handleCheckIn "2025-01-01T10:00:00.000Z" true
      [{ id := "doc1"
         data := [("id", .str "R-1001"), ("reservationId", .str "R-1001"),
           ("status", .str "confirmed"), ("qrVerificationCode", .str "AB12CD")] }]
      false
      (reservationOf
        { id := "doc1"
          data := [("id", .str "R-1001"), ("reservationId", .str "R-1001"),
            ("status", .str "confirmed"), ("qrVerificationCode", .str "AB12CD")] })).db.map
      (fun d => (d.id, lookupLast "status" d.data)) = [("doc1", some (.str "confirmed"))] :=
  ⟨rfl, rfl, rfl, rfl⟩

/-- C26 fails when the two locations hold different codes.  For a reservation
with `qrData.verificationCode = "AB12CD"` and `qrVerificationCode = "ZZ99"`
the verifier resolves and compares `AB12CD` (the scan of `AB12CD` succeeds),
while the details screen displays `ZZ99`. -/
theorem c26_displayed_code_differs_from_verified_code :
    storedVerificationCode
      (reservationOf ⟨"doc1", [("reservationId", .str "R-1001"), ("status", .str "confirmed"),
        ("qrData", .obj [("verificationCode", .str "AB12CD")]),
        ("qrVerificationCode", .str "ZZ99")]⟩) = .str "AB12CD" ∧
    displayedVerificationCode
      (reservationOf ⟨"doc1", [("reservationId", .str "R-1001"), ("status", .str "confirmed"),
        ("qrData", .obj [("verificationCode", .str "AB12CD")]),
        ("qrVerificationCode", .str "ZZ99")]⟩) = .str "ZZ99" ∧
    (handleBarCodeScanned
      (Store.backend exampleParse (exampleStore "confirmed"
        [("qrData", .obj [("verificationCode", .str "AB12CD")]),
          ("qrVerificationCode", .str "ZZ99")]))
      .initial examplePayload).events =
      [.getDocs (.str "R-1001"), .showModal successModal,
        .navigateReplace 1500 "ReservationDetails"
          (reservationOf ⟨"doc1", [("reservationId", .str "R-1001"),
            ("status", .str "confirmed"),
            ("qrData", .obj [("verificationCode", .str "AB12CD")]),
            ("qrVerificationCode", .str "ZZ99")]⟩)] :=
  ⟨rfl, rfl, rfl⟩

/-- C29. For every reservation passed to the details screen that may still be
checked in (`canCheckIn`) and whose id is missing or empty, `handleCheckIn`
issues no write, shows the alert "Reservation ID missing." and nothing else
(no success alert, no navigation), leaves the collection as it was and leaves
`loading` false. -/
theorem c29_missing_id_is_reported (now : String) (reachable : Bool) (db : Store)
    (loading : Bool) (reservation : JVal)
    (hcan : canCheckIn reservation = true)
    (hid : (reservation.get "id").truthy = false) :
    (handleCheckIn now reachable db loading reservation).events =
      [.alert "Error" "Reservation ID missing."] ∧
    (handleCheckIn now reachable db loading reservation).events.filter Event.isUpdateDoc = [] ∧
    (handleCheckIn now reachable db loading reservation).db = db ∧
    (handleCheckIn now reachable db loading reservation).loading = false := by
  simp [handleCheckIn, hcan, hid, Event.isUpdateDoc]

/-- C29 at a confirmed reservation without an id and at one whose id is the
empty string. -/
theorem c29_missing_id_witness :
    (handleCheckIn "2025-01-01T10:00:00.000Z" true (exampleStore "confirmed" []) true
      (.obj [("reservationId", .str "R-1001"), ("status", .str "confirmed")])).events =
      [.alert "Error" "Reservation ID missing."] ∧
    (handleCheckIn "2025-01-01T10:00:00.000Z" true (exampleStore "confirmed" []) true
      (.obj [("id", .str ""), ("reservationId", .str "R-1001"),
        ("status", .str "confirmed")])).loading = false :=
  ⟨(c29_missing_id_is_reported "2025-01-01T10:00:00.000Z" true (exampleStore "confirmed" [])
      true (.obj [("reservationId", .str "R-1001"), ("status", .str "confirmed")]) rfl rfl).1,
   (c29_missing_id_is_reported "2025-01-01T10:00:00.000Z" true (exampleStore "confirmed" [])
      true (.obj [("id", .str ""), ("reservationId", .str "R-1001"),
        ("status", .str "confirmed")]) rfl rfl).2.2.2⟩

/-- C30. `handleLogin` makes no sign-in call when the email field or the
password field is empty and shows the alert for what is missing (both, the
Admin ID, or the Admin Pass), leaving `loading` as it was; otherwise it makes
exactly one sign-in call, with the trimmed email and the password unchanged,
and leaves `loading` false.  From an idle screen (`loading` false, the only
state in which the Login button is enabled) `loading` is false at the end in
every case. -/
theorem c30_login_validation (signIn : String → String → Option AuthError)
    (email password : String) (loading : Bool) :
    (email = "" → password = "" →
      (handleLogin signIn email password loading).events =
        [.alert "⚠️ Missing info" "Please enter both Admin ID and Admin Pass."]) ∧
    (email = "" → password ≠ "" →
      (handleLogin signIn email password loading).events =
        [.alert "⚠️ Missing Admin ID" "Please enter your Admin ID."]) ∧
    (email ≠ "" → password = "" →
      (handleLogin signIn email password loading).events =
        [.alert "⚠️ Missing Admin Pass" "Please enter your Admin Pass."]) ∧
    (email = "" ∨ password = "" →
      (handleLogin signIn email password loading).events.filter LoginEvent.isSignIn = [] ∧
      (handleLogin signIn email password loading).loading = loading) ∧
    (email ≠ "" → password ≠ "" →
      (handleLogin signIn email password loading).events.filter LoginEvent.isSignIn =
        [.signIn (jsTrim email) password] ∧
      (handleLogin signIn email password loading).loading = false) ∧
    (loading = false → (handleLogin signIn email password loading).loading = false) := by
  have hcatch : ∀ e : AuthError, (loginErrorAlert e).isSignIn = false := by
    intro e
    unfold loginErrorAlert
    repeat' split
    all_goals rfl
  refine ⟨?_, ?_, ?_, ?_, ?_, ?_⟩
  · intro he hp
    simp [handleLogin, he, hp]
  · intro he hp
    simp [handleLogin, he, hp]
  · intro he hp
    simp [handleLogin, he, hp]
  · intro h
    by_cases he : email = "" <;> by_cases hp : password = ""
    · simp [handleLogin, he, hp, LoginEvent.isSignIn]
    · simp [handleLogin, he, hp, LoginEvent.isSignIn]
    · simp [handleLogin, he, hp, LoginEvent.isSignIn]
    · rcases h with h | h
      · exact absurd h he
      · exact absurd h hp
  · intro he hp
    cases hs : signIn (jsTrim email) password with
    | none => simp [handleLogin, he, hp, hs, LoginEvent.isSignIn]
    | some e =>
      have h1 : (LoginEvent.signIn (jsTrim email) password).isSignIn = true := rfl
      simp [handleLogin, he, hp, hs, List.filter, h1, hcatch e]
  · intro hl
    subst hl
    unfold handleLogin
    repeat' split
    all_goals rfl

/-- C30 at an email typed with surrounding blanks: one sign-in call with the
trimmed email and the password as typed. -/
theorem c30_login_witness :
    (handleLogin (fun _ _ => none) "  admin@resort.ph \n" " pass " false).events.filter
      LoginEvent.isSignIn = [.signIn "admin@resort.ph" " pass "] ∧
    (handleLogin (fun _ _ => none) "  admin@resort.ph \n" " pass " false).loading = false :=
  (c30_login_validation (fun _ _ => none) "  admin@resort.ph \n" " pass " false).2.2.2.2.1
    (by decide) (by decide)

end StaffApp
